import Mathlib

/-
  Verification development for the price-index reconciliation engine of
  `city_price_processor.py` (class `PriceIndexCalculationEngine`).

  Modelling conventions:
  * Python float arithmetic is embedded as exact rational arithmetic (ℚ).
  * Python `round(x, 1)` is embedded as `roundTo1` below, rounding the first
    decimal with `round` (ties rounded up); all concrete inputs used in the
    theorems below stay away from exact rounding ties, where Python's
    round-half-to-even could differ.
  * Python dicts holding one point's data become the structure `Pt`; keys that
    are absent until first written (`corrected`, `mom_match`, ...) get the
    default value that the source's `dict.get(key, default)` reads supply.
  * In-place list mutation becomes `List.set` threaded through folds in the
    same index order as the source loops.
  * The exceptional control flow of the source (KeyError on a missing dict
    key, ZeroDivisionError) is modelled separately in the `Checked` namespace;
    the main model is total, which is faithful on every input on which the
    source raises nothing.
-/

namespace HousePrice

/-- One input observation, as produced by the upstream extraction code:
`date`, `month_on_month`, `year_on_year` (and an optional `filepath`). -/
structure Obs where
  date : String
  month_on_month : ℚ
  year_on_year : ℚ
  filepath : String := ""
  deriving DecidableEq, Repr

/-- One per-period output record of the engine (the dict built by
`calculate_actual_values` and enriched by `_verify_data_consistency`).
Fields that the Python dict only acquires later carry the defaults that the
source's `dict.get(key, default)` accesses use (`corrected` is read nowhere,
`mom_match`/`yoy_match` are read with default `True`). -/
structure Pt where
  date : String
  month_on_month : ℚ
  year_on_year : ℚ
  growth_rate : ℚ
  actual_value : ℚ
  filepath : String := ""
  corrected : Bool := false
  calculated_mom : Option ℚ := none
  calculated_yoy : Option ℚ := none
  mom_error : Option ℚ := none
  yoy_error : Option ℚ := none
  mom_match : Bool := true
  yoy_match : Bool := true
  deriving DecidableEq, Repr

/-- Default point used only to make positional list access total. -/
def dfltPt : Pt :=
  { date := "", month_on_month := 0, year_on_year := 0, growth_rate := 0, actual_value := 0 }

/-- `result[i]` of the source, total via a default. -/
def getPt (s : List Pt) (i : ℕ) : Pt := s.getD i dfltPt

/-- `result[i]['actual_value']` of the source. -/
def av (s : List Pt) (i : ℕ) : ℚ := (getPt s i).actual_value

/-- Python `round(q, 1)`: round to one decimal digit.  Defined through
`Rat.floor` so that the kernel can evaluate it; `roundTo1_eq_round` below
identifies it with rounding via Mathlib's `round`. -/
def roundTo1 (q : ℚ) : ℚ := (((10 * q + 1 / 2).floor : ℤ) : ℚ) / 10

/-- The match test of `_verify_data_consistency`:
`abs(round(calculated, 1) - published) < 0.05`. -/
def matchRound (calcd target : ℚ) : Bool := decide (|roundTo1 calcd - target| < 1 / 20)

/-- Builds one output dict of `calculate_actual_values` (lines 53-60). -/
def mkPt (d : Obs) (g v : ℚ) : Pt :=
  { date := d.date, month_on_month := d.month_on_month, year_on_year := d.year_on_year,
    growth_rate := g, actual_value := v, filepath := d.filepath }

/-- The `i > 0` part of the loop of `calculate_actual_values`: `current_value`
is the previous point's `actual_value`. -/
def calcActualGo : List Obs → ℚ → List Pt
  | [], _ => []
  | d :: rest, current_value =>
    let growth_rate := (d.month_on_month - 100) / 100
    let actual_value := current_value * (1 + growth_rate)
    mkPt d growth_rate actual_value :: calcActualGo rest actual_value

/-- `calculate_actual_values` (lines 23-64): pure forward chain construction
from MoM; the first point gets the base value. -/
def calculate_actual_values (price_data : List Obs) (base_value : ℚ) : List Pt :=
  match price_data with
  | [] => []
  | d :: rest =>
    mkPt d ((d.month_on_month - 100) / 100) base_value :: calcActualGo rest base_value

/-- `_calculate_ideal_value` (lines 156-194). -/
def calculate_ideal_value (result : List Pt) (index : ℕ) : Option ℚ :=
  let c := getPt result index
  let fromMom : Option ℚ :=
    if 0 < index then some (av result (index - 1) * c.month_on_month / 100) else none
  if 12 ≤ index then
    let fromYoy := av result (index - 12) * c.year_on_year / 100
    match fromMom with
    | some m => some (m * (3 / 10) + fromYoy * (7 / 10))
    | none => some fromYoy
  else fromMom

/-- The damping factor of line 106: `max(0.1, 0.8 * (1 - iteration / max_iterations))`.
(The source only evaluates it with `max_iterations > 0`, since the sweep loop
body is unreachable for `max_iterations = 0`.) -/
def damping_factor (iteration max_iterations : ℕ) : ℚ :=
  max (1 / 10) ((4 / 5) * (1 - (iteration : ℚ) / (max_iterations : ℚ)))

/-- One step of the phase-1 sweep loop (lines 93-112) at index `i`; the pair
carries (state, max_adjustment). -/
def sweepStep (it maxIt : ℕ) (p : List Pt × ℚ) (i : ℕ) : List Pt × ℚ :=
  match calculate_ideal_value p.1 i with
  | none => p
  | some ideal =>
    let c := getPt p.1 i
    let original := c.actual_value
    let adjustment := ideal - original
    (p.1.set i
       { c with actual_value := original + adjustment * damping_factor it maxIt,
                corrected := true },
     max p.2 |adjustment|)

/-- Phase 1 of one sweep iteration (lines 89-112), returning the updated state
and the tracked `max_adjustment` of the pass. -/
def sweepPass (it maxIt : ℕ) (s : List Pt) : List Pt × ℚ :=
  (List.range s.length).foldl (sweepStep it maxIt) (s, 0)

/-- Generic in-place pass of the source: visit indices `0, 1, ...` in order
over one mutable buffer, replacing entry `i` by `f state i`. -/
def pass (f : List Pt → ℕ → Pt) (s : List Pt) : List Pt :=
  (List.range s.length).foldl (fun t i => t.set i (f t i)) s

/-- Body of `_precise_matching_adjustment` (lines 204-234) at index `i`.
`v` is the snapshot `actual_value = current_data['actual_value']` taken at the
top of the loop body: the YoY test and YoY gap use this snapshot even when the
MoM nudge has already moved the stored value. -/
def preciseAt (t : List Pt) (i : ℕ) : Pt :=
  let c := getPt t i
  let v := c.actual_value
  let c1 :=
    if 0 < i then
      let prev := av t (i - 1)
      let calculated_mom := v / prev * 100
      if 1 / 20 ≤ |roundTo1 calculated_mom - c.month_on_month| then
        { c with actual_value :=
            c.actual_value + (prev * c.month_on_month / 100 - v) * (3 / 10) }
      else c
    else c
  if 12 ≤ i then
    let prev_year := av t (i - 12)
    let calculated_yoy := v / prev_year * 100
    if 1 / 20 ≤ |roundTo1 calculated_yoy - c.year_on_year| then
      { c1 with actual_value :=
          c1.actual_value + (prev_year * c.year_on_year / 100 - v) * (1 / 2) }
    else c1
  else c1

/-- `_precise_matching_adjustment` (lines 196-234). -/
def precise_matching_adjustment (s : List Pt) : List Pt := pass preciseAt s

/-- Body of `_update_all_chain_effects` (lines 245-257) at index `i`.  The
source iterates `range(1, len(result))`; this body is the identity at `i = 0`,
so running it over all indices is the same pass. -/
def chainAt (t : List Pt) (i : ℕ) : Pt :=
  let c := getPt t i
  if 0 < i then
    let prev := av t (i - 1)
    let ideal_from_mom := prev * c.month_on_month / 100
    if 1 / 10 < |c.actual_value - ideal_from_mom| then
      { c with actual_value := c.actual_value * (7 / 10) + ideal_from_mom * (3 / 10) }
    else c
  else c

/-- `_update_all_chain_effects` (lines 236-257). -/
def update_all_chain_effects (s : List Pt) : List Pt := pass chainAt s

/-- `_verify_data_consistency` (lines 360-410) for index `i`, merged into the
point as the source's `data.update(verification)` does (all six diagnostic
keys are overwritten, starting from the defaults of lines 375-382). -/
def verifyAt (t : List Pt) (i : ℕ) : Pt :=
  let c := getPt t i
  let c0 := { c with calculated_mom := none, calculated_yoy := none,
                     mom_error := none, yoy_error := none,
                     mom_match := true, yoy_match := true }
  let c1 :=
    if 0 < i then
      let prev := av t (i - 1)
      let calculated_mom := c.actual_value / prev * 100
      { c0 with calculated_mom := some calculated_mom,
                mom_error := some |calculated_mom - c.month_on_month|,
                mom_match := matchRound calculated_mom c.month_on_month }
    else c0
  if 12 ≤ i then
    let prev_year := av t (i - 12)
    let calculated_yoy := c.actual_value / prev_year * 100
    { c1 with calculated_yoy := some calculated_yoy,
              yoy_error := some |calculated_yoy - c.year_on_year|,
              yoy_match := matchRound calculated_yoy c.year_on_year }
  else c1

/-- The `for i, data in enumerate(result): data.update(_verify_data_consistency(result, i))`
loops (lines 126-128, 134-136, 150-152). -/
def verifyAllPass (s : List Pt) : List Pt := pass verifyAt s

/-- The MoM mismatch test used by `_force_final_matching` (lines 274-282 and
325-331). -/
def momBad (s : List Pt) (i : ℕ) : Bool :=
  decide (0 < i) &&
    decide (1 / 20 ≤ |roundTo1 (av s i / av s (i - 1) * 100) - (getPt s i).month_on_month|)

/-- The YoY mismatch test used by `_force_final_matching` (lines 284-293 and
333-340). -/
def yoyBad (s : List Pt) (i : ℕ) : Bool :=
  decide (12 ≤ i) &&
    decide (1 / 20 ≤ |roundTo1 (av s i / av s (i - 12) * 100) - (getPt s i).year_on_year|)

/-- One entry of the `all_mismatches` list of `_force_final_matching`. -/
structure MInfo where
  index : ℕ
  hasMom : Bool
  hasYoy : Bool
  priority : ℕ
  deriving DecidableEq, Repr

/-- Building `all_mismatches` (lines 268-296): one entry per mismatching
point, tagged with the failing constraint(s) and priority (+1 MoM, +2 YoY). -/
def mismatchScan (s : List Pt) : List MInfo :=
  (List.range s.length).filterMap (fun i =>
    let hm := momBad s i
    let hy := yoyBad s i
    if hm || hy then
      some ⟨i, hm, hy, (if hm then 1 else 0) + (if hy then 2 else 0)⟩
    else none)

/-- Line 299, `all_mismatches.sort(key=priority, reverse=True)`: Python's sort
is stable and the scan only produces priorities 1, 2 and 3, so the stable
descending sort is bucketing by priority 3, then 2, then 1, each bucket in
original (index) order. -/
def sortByPriorityDesc (l : List MInfo) : List MInfo :=
  l.filter (fun m => m.priority == 3) ++ l.filter (fun m => m.priority == 2) ++
    l.filter (fun m => m.priority == 1)

/-- One snap of the first correction loop (lines 303-317). -/
def snapMismatch (s : List Pt) (m : MInfo) : List Pt :=
  let i := m.index
  if m.hasYoy && decide (12 ≤ i) then
    s.set i { getPt s i with
      actual_value := av s (i - 12) * (getPt s i).year_on_year / 100 }
  else if m.hasMom && decide (0 < i) then
    s.set i { getPt s i with
      actual_value := av s (i - 1) * (getPt s i).month_on_month / 100 }
  else s

/-- The first `while len(all_mismatches) > 2: pop(0); snap` loop (lines
302-317); the list is the one computed on entry, not recomputed after snaps.
Also returns the number of entries popped. -/
def snapLoop1 : List MInfo → List Pt → List Pt × ℕ
  | [], s => (s, 0)
  | m :: rest, s =>
    if rest.length + 1 ≤ 2 then (s, 0)
    else
      let r := snapLoop1 rest (snapMismatch s m)
      (r.1, r.2 + 1)

/-- Recomputing `remaining_mismatches` (lines 320-343): just the indices. -/
def rescanBad (s : List Pt) : List ℕ :=
  (List.range s.length).filter (fun i => momBad s i || yoyBad s i)

/-- One snap of the second correction loop (lines 347-358): YoY-implied if
`i >= 12`, else MoM-implied if `i > 0`, regardless of which test failed. -/
def snapByIndex (s : List Pt) (i : ℕ) : List Pt :=
  if 12 ≤ i then
    s.set i { getPt s i with
      actual_value := av s (i - 12) * (getPt s i).year_on_year / 100 }
  else if 0 < i then
    s.set i { getPt s i with
      actual_value := av s (i - 1) * (getPt s i).month_on_month / 100 }
  else s

/-- The second `while len(remaining_mismatches) > 2: pop(0); snap` loop
(lines 346-358); again the list is not recomputed after snaps.
Also returns the number of entries popped. -/
def snapLoop2 : List ℕ → List Pt → List Pt × ℕ
  | [], s => (s, 0)
  | i :: rest, s =>
    if rest.length + 1 ≤ 2 then (s, 0)
    else
      let r := snapLoop2 rest (snapByIndex s i)
      (r.1, r.2 + 1)

/-- `_force_final_matching` (lines 259-358). -/
def force_final_matching (s : List Pt) : List Pt :=
  let s1 := (snapLoop1 (sortByPriorityDesc (mismatchScan s)) s).1
  (snapLoop2 (rescanBad s1) s1).1

/-- The round-level mismatch statistic of lines 139-141:
`count(mom_match=false) + count(yoy_match=false)` over the stored flags
(`d.get('mom_match', True)` is the structure default). -/
def totalMismatchCount (s : List Pt) : ℕ :=
  (s.filter (fun d => !d.mom_match)).length + (s.filter (fun d => !d.yoy_match)).length

/-- The final forcing loop of lines 131-147, with fuel 5; returns the state
and how many `_force_final_matching` rounds were executed. -/
def forceLoop : ℕ → List Pt → List Pt × ℕ
  | 0, s => (s, 0)
  | fuel + 1, s =>
    let s1 := verifyAllPass s
    if totalMismatchCount s1 ≤ 2 then (s1, 0)
    else
      let r := forceLoop fuel (force_final_matching s1)
      (r.1, r.2 + 1)

/-- One iteration of the correction loop body (lines 89-119): phase-1 sweep,
then (for `iteration > 10`) precise matching, then chain effects; the returned
rational is the `max_adjustment` tracked by phase 1. -/
def sweepBody (maxIt it : ℕ) (s : List Pt) : List Pt × ℚ :=
  let pm := sweepPass it maxIt s
  let s2 := if 10 < it then precise_matching_adjustment pm.1 else pm.1
  (update_all_chain_effects s2, pm.2)

/-- The `for iteration in range(max_iterations)` loop (lines 88-123) with its
`if max_adjustment < tolerance: break`; returns the state and the number of
iterations actually executed. -/
def sweepLoop (maxIt : ℕ) (tol : ℚ) : ℕ → ℕ → List Pt → List Pt × ℕ
  | 0, _, s => (s, 0)
  | rem + 1, it, s =>
    let b := sweepBody maxIt it s
    if b.2 < tol then (b.1, 1)
    else
      let r := sweepLoop maxIt tol rem (it + 1) b.1
      (r.1, r.2 + 1)

/-- `calculate_corrected_values` (lines 66-154): baseline chain, damped
iterative sweep, verification, up to 5 forcing rounds, final verification. -/
def calculate_corrected_values (price_data : List Obs) (base_value : ℚ)
    (max_iterations : ℕ) (tolerance : ℚ) : List Pt :=
  match price_data with
  | [] => []
  | _ :: _ =>
    let result0 := calculate_actual_values price_data base_value
    let swept := (sweepLoop max_iterations tolerance max_iterations 0 result0).1
    let verified := verifyAllPass swept
    let forced := (forceLoop 5 verified).1
    verifyAllPass forced

/-! ## Derived definitions used to state and prove the claims -/

/-- The pass of `pass` restricted to the indices `< k`. -/
def passUpTo (f : List Pt → ℕ → Pt) (k : ℕ) (s : List Pt) : List Pt :=
  (List.range k).foldl (fun t i => t.set i (f t i)) s

/-- The four fields that the correction stages never rewrite. -/
def fixedOf (p : Pt) : String × ℚ × ℚ × ℚ :=
  (p.date, p.month_on_month, p.year_on_year, p.growth_rate)

/-- Every field except the six diagnostic fields that
`_verify_data_consistency` overwrites. -/
def nonDiag (p : Pt) : String × ℚ × ℚ × ℚ × ℚ × String × Bool :=
  (p.date, p.month_on_month, p.year_on_year, p.growth_rate, p.actual_value,
   p.filepath, p.corrected)

/-- Default observation used only to make positional list access total. -/
def dfltObs : Obs := { date := "", month_on_month := 0, year_on_year := 0 }

/-- What `calculate_actual_values` copies or derives from one observation:
`date`, the two published percentages and the growth rate. -/
def obsFixed (o : Obs) : String × ℚ × ℚ × ℚ :=
  (o.date, o.month_on_month, o.year_on_year, (o.month_on_month - 100) / 100)

/-- The per-index body of the phase-1 sweep, as a plain state transformer
(`sweepPass_fst` identifies the sweep's state component with `pass sweepAt`). -/
def sweepAt (it maxIt : ℕ) (t : List Pt) (i : ℕ) : Pt :=
  match calculate_ideal_value t i with
  | none => getPt t i
  | some ideal =>
    let c := getPt t i
    let original := c.actual_value
    let adjustment := ideal - original
    { c with actual_value := original + adjustment * damping_factor it maxIt,
             corrected := true }

/-- The state at the start of iteration `it + k` when the sweep body is
iterated from state `s` at iteration `it` without ever breaking. -/
def statesFrom (maxIt it : ℕ) (s : List Pt) : ℕ → List Pt
  | 0 => s
  | k + 1 => (sweepBody maxIt (it + k) (statesFrom maxIt it s k)).1

/-- The `max_adjustment` value tracked by the `k`-th pass of that iteration. -/
def adjAt (maxIt it : ℕ) (s : List Pt) (k : ℕ) : ℚ :=
  (sweepBody maxIt (it + k) (statesFrom maxIt it s k)).2

/-! ## Concrete inputs and states used by the claim theorems -/

/-- Shorthand observation constructor. -/
def mkObsM (d : String) (m y : ℚ) : Obs :=
  { date := d, month_on_month := m, year_on_year := y }

/-- A flat reconciled point at level 100. -/
def ptflat : Pt :=
  { date := "", month_on_month := 100, year_on_year := 100, growth_rate := 0,
    actual_value := 100 }

/-- 24 contiguous months, every `month_on_month = 100.0` and every
`year_on_year = 100.0` except `99.9` in months 14, 17, 20 and 23 (indices 13,
16, 19, 22); all published values lie in [95, 105]. -/
def obsC1 : List Obs :=
  [mkObsM "2023-01" 100 100, mkObsM "2023-02" 100 100, mkObsM "2023-03" 100 100,
   mkObsM "2023-04" 100 100, mkObsM "2023-05" 100 100, mkObsM "2023-06" 100 100,
   mkObsM "2023-07" 100 100, mkObsM "2023-08" 100 100, mkObsM "2023-09" 100 100,
   mkObsM "2023-10" 100 100, mkObsM "2023-11" 100 100, mkObsM "2023-12" 100 100,
   mkObsM "2024-01" 100 100, mkObsM "2024-02" 100 (999 / 10), mkObsM "2024-03" 100 100,
   mkObsM "2024-04" 100 100, mkObsM "2024-05" 100 (999 / 10), mkObsM "2024-06" 100 100,
   mkObsM "2024-07" 100 100, mkObsM "2024-08" 100 (999 / 10), mkObsM "2024-09" 100 100,
   mkObsM "2024-10" 100 100, mkObsM "2024-11" 100 (999 / 10), mkObsM "2024-12" 100 100]

/-- 13 months, flat `month_on_month = 100`, and a `year_on_year` of
`100.0015` at the last month: the only nonzero sweep adjustment is
`0.7 * 0.0015 = 0.00105`, which sits between `tolerance = 0.001` and
`tolerance / 0.8`. -/
def obsC4 : List Obs :=
  List.replicate 12 (mkObsM "2023" 100 100) ++ [mkObsM "2024-01" 100 (100 + 3 / 2000)]

/-- 13 flat points with `actual_value = 101` at index 12: that point fails
both its MoM test (calculated 101 vs published 100) and its YoY test
(calculated 101 vs published 100). -/
def s6cex : List Pt :=
  List.replicate 12 ptflat ++ [{ ptflat with actual_value := 101 }]

/-- 14 flat points with `actual_value` 101 and 102 at indices 12 and 13:
exactly those two points fail, and each fails both constraints. -/
def s10cex : List Pt :=
  List.replicate 12 ptflat ++
    [{ ptflat with actual_value := 101 }, { ptflat with actual_value := 102 }]

/-- 13 flat points whose last point has published `year_on_year = 105`. -/
def stW13 : List Pt :=
  List.replicate 12 ptflat ++ [{ ptflat with year_on_year := 105 }]

/-- A single well-formed observation. -/
def obsW1 : List Obs := [mkObsM "2024-01" 100 100]

/-- The two-point series of the spec scenario: MoM `[100.0, 100.5]`. -/
def obsW2 : List Obs := [mkObsM "2024-01" 100 100, mkObsM "2024-02" (1005 / 10) 100]

namespace Checked

/-
  The `Checked` model makes the source's exceptional control flow explicit:
  a dict read `data['month_on_month']` raises `KeyError` when the key is
  absent, and `x / y` raises `ZeroDivisionError` when `y == 0`.  Stages that
  contain no dict read and no division by a state value (the phase-1 sweep,
  the chain-effect pass, the snapping loops) are reused from the main model.
-/

/-- One input dict as the engine receives it: `date` always present (the
extraction code always writes it), `month_on_month`/`year_on_year` possibly
absent, `filepath` read with `.get('filepath', '')`. -/
structure ObsD where
  date : String
  month_on_month : Option ℚ
  year_on_year : Option ℚ
  filepath : Option String := none
  deriving DecidableEq, Repr

/-- `d[key]`: raises `KeyError` when the key is absent. -/
def getKey {α : Type} : Option α → Except String α
  | some a => Except.ok a
  | none => Except.error "KeyError"

/-- Division as Python performs it: raises on a zero divisor. -/
def divE (a b : ℚ) : Except String ℚ :=
  if b = 0 then Except.error "ZeroDivisionError" else Except.ok (a / b)

/-- The loop of `calculate_actual_values` (lines 41-62) with the dict reads
made explicit; `first` marks `i == 0`. -/
def calcActualGoD : List ObsD → ℚ → Bool → ℚ → Except String (List Pt)
  | [], _, _, _ => Except.ok []
  | d :: rest, current_value, first, base_value => do
    let m ← getKey d.month_on_month
    let growth_rate := (m - 100) / 100
    let actual_value := if first then base_value else current_value * (1 + growth_rate)
    let y ← getKey d.year_on_year
    let tail ← calcActualGoD rest actual_value false base_value
    Except.ok ({ date := d.date, month_on_month := m, year_on_year := y,
                 growth_rate := growth_rate, actual_value := actual_value,
                 filepath := d.filepath.getD "" } :: tail)

/-- `calculate_actual_values` (lines 23-64), checked. -/
def calculate_actual_valuesD (l : List ObsD) (base_value : ℚ) : Except String (List Pt) :=
  match l with
  | [] => Except.ok []
  | _ :: _ => calcActualGoD l base_value true base_value

/-- Generic checked in-place pass. -/
def passD (f : List Pt → ℕ → Except String Pt) (s : List Pt) : Except String (List Pt) :=
  (List.range s.length).foldlM (fun t i => do
    let p ← f t i
    Except.ok (t.set i p)) s

/-- `_precise_matching_adjustment` body (lines 204-234), checked. -/
def preciseAtD (t : List Pt) (i : ℕ) : Except String Pt := do
  let c := getPt t i
  let v := c.actual_value
  let c1 ←
    if 0 < i then do
      let prev := av t (i - 1)
      let q ← divE v prev
      let calculated_mom := q * 100
      Except.ok (if 1 / 20 ≤ |roundTo1 calculated_mom - c.month_on_month| then
        { c with actual_value :=
            c.actual_value + (prev * c.month_on_month / 100 - v) * (3 / 10) }
      else c)
    else Except.ok c
  if 12 ≤ i then do
    let prev_year := av t (i - 12)
    let q ← divE v prev_year
    let calculated_yoy := q * 100
    Except.ok (if 1 / 20 ≤ |roundTo1 calculated_yoy - c.year_on_year| then
      { c1 with actual_value :=
          c1.actual_value + (prev_year * c.year_on_year / 100 - v) * (1 / 2) }
    else c1)
  else Except.ok c1

/-- `_precise_matching_adjustment` (lines 196-234), checked. -/
def precise_matching_adjustmentD (s : List Pt) : Except String (List Pt) :=
  passD preciseAtD s

/-- `_verify_data_consistency` (lines 360-410), checked. -/
def verifyAtD (t : List Pt) (i : ℕ) : Except String Pt := do
  let c := getPt t i
  let c0 := { c with calculated_mom := (none : Option ℚ), calculated_yoy := (none : Option ℚ),
                     mom_error := (none : Option ℚ), yoy_error := (none : Option ℚ),
                     mom_match := true, yoy_match := true }
  let c1 ←
    if 0 < i then do
      let prev := av t (i - 1)
      let q ← divE c.actual_value prev
      let calculated_mom := q * 100
      Except.ok { c0 with calculated_mom := some calculated_mom,
                          mom_error := some |calculated_mom - c.month_on_month|,
                          mom_match := matchRound calculated_mom c.month_on_month }
    else Except.ok c0
  if 12 ≤ i then do
    let prev_year := av t (i - 12)
    let q ← divE c.actual_value prev_year
    let calculated_yoy := q * 100
    Except.ok { c1 with calculated_yoy := some calculated_yoy,
                        yoy_error := some |calculated_yoy - c.year_on_year|,
                        yoy_match := matchRound calculated_yoy c.year_on_year }
  else Except.ok c1

/-- The verification loops (lines 126-128, 134-136, 150-152), checked. -/
def verifyAllPassD (s : List Pt) : Except String (List Pt) := passD verifyAtD s

/-- The MoM mismatch test of `_force_final_matching`, checked. -/
def momBadD (s : List Pt) (i : ℕ) : Except String Bool :=
  if 0 < i then do
    let q ← divE (av s i) (av s (i - 1))
    Except.ok (decide (1 / 20 ≤ |roundTo1 (q * 100) - (getPt s i).month_on_month|))
  else Except.ok false

/-- The YoY mismatch test of `_force_final_matching`, checked. -/
def yoyBadD (s : List Pt) (i : ℕ) : Except String Bool :=
  if 12 ≤ i then do
    let q ← divE (av s i) (av s (i - 12))
    Except.ok (decide (1 / 20 ≤ |roundTo1 (q * 100) - (getPt s i).year_on_year|))
  else Except.ok false

/-- Building `all_mismatches` (lines 268-296), checked. -/
def mismatchScanD (s : List Pt) : Except String (List MInfo) :=
  (List.range s.length).foldlM (fun acc i => do
    let hm ← momBadD s i
    let hy ← yoyBadD s i
    Except.ok (if hm || hy then
      acc ++ [⟨i, hm, hy, (if hm then 1 else 0) + (if hy then 2 else 0)⟩]
    else acc)) []

/-- Recomputing `remaining_mismatches` (lines 320-343), checked. -/
def rescanBadD (s : List Pt) : Except String (List ℕ) :=
  (List.range s.length).foldlM (fun acc i => do
    let hm ← momBadD s i
    let hy ← yoyBadD s i
    Except.ok (if hm || hy then acc ++ [i] else acc)) []

/-- `_force_final_matching` (lines 259-358), checked; the snapping loops
contain no division and are shared with the main model. -/
def force_final_matchingD (s : List Pt) : Except String (List Pt) := do
  let sc ← mismatchScanD s
  let s1 := (snapLoop1 (sortByPriorityDesc sc) s).1
  let rem ← rescanBadD s1
  Except.ok ((snapLoop2 rem s1).1)

/-- The forcing loop (lines 131-147), checked. -/
def forceLoopD : ℕ → List Pt → Except String (List Pt)
  | 0, s => Except.ok s
  | fuel + 1, s => do
    let s1 ← verifyAllPassD s
    if totalMismatchCount s1 ≤ 2 then Except.ok s1
    else do
      let s2 ← force_final_matchingD s1
      forceLoopD fuel s2

/-- The damped sweep loop (lines 88-123), checked; phase 1 and the
chain-effect pass perform no division by a state value. -/
def sweepLoopD (maxIt : ℕ) (tol : ℚ) : ℕ → ℕ → List Pt → Except String (List Pt)
  | 0, _, s => Except.ok s
  | rem + 1, it, s => do
    let pm := sweepPass it maxIt s
    let s2 ← if 10 < it then precise_matching_adjustmentD pm.1 else Except.ok pm.1
    let s3 := update_all_chain_effects s2
    if pm.2 < tol then Except.ok s3
    else sweepLoopD maxIt tol rem (it + 1) s3

/-- `calculate_corrected_values` (lines 66-154), checked. -/
def calculate_corrected_valuesD (l : List ObsD) (b : ℚ) (mi : ℕ) (tol : ℚ) :
    Except String (List Pt) :=
  match l with
  | [] => Except.ok []
  | _ :: _ => do
    let r0 ← calculate_actual_valuesD l b
    let swept ← sweepLoopD mi tol mi 0 r0
    let v ← verifyAllPassD swept
    let f ← forceLoopD 5 v
    verifyAllPassD f

end Checked

/-! ## Generic lemmas about the in-place index passes -/

theorem passUpTo_succ (f : List Pt → ℕ → Pt) (k : ℕ) (s : List Pt) :
    passUpTo f (k + 1) s = (passUpTo f k s).set k (f (passUpTo f k s) k) := by
  unfold passUpTo
  rw [List.range_succ, List.foldl_append]
  rfl

theorem passUpTo_length (f : List Pt → ℕ → Pt) (k : ℕ) (s : List Pt) :
    (passUpTo f k s).length = s.length := by
  induction k with
  | zero => rfl
  | succ k ih => rw [passUpTo_succ, List.length_set, ih]

theorem pass_eq_passUpTo (f : List Pt → ℕ → Pt) (s : List Pt) :
    pass f s = passUpTo f s.length s := rfl

theorem getPt_eq_getElem (s : List Pt) (i : ℕ) (h : i < s.length) :
    getPt s i = s[i] := by
  simp [getPt, List.getD_eq_getElem?_getD, List.getElem?_eq_getElem h]

theorem getPt_set_self (s : List Pt) (i : ℕ) (h : i < s.length) (p : Pt) :
    getPt (s.set i p) i = p := by
  simp [getPt, List.getD_eq_getElem?_getD, List.getElem?_set_self h]

theorem getPt_set_ne (s : List Pt) (i j : ℕ) (h : i ≠ j) (p : Pt) :
    getPt (s.set i p) j = getPt s j := by
  simp [getPt, List.getD_eq_getElem?_getD, List.getElem?_set_ne h]

theorem set_getPt_self (s : List Pt) (i : ℕ) : s.set i (getPt s i) = s := by
  by_cases h : i < s.length
  · apply List.ext_getElem?
    intro n
    by_cases hn : i = n
    · subst hn
      rw [List.getElem?_set_self h, getPt_eq_getElem s i h, List.getElem?_eq_getElem h]
    · rw [List.getElem?_set_ne hn]
  · exact List.set_eq_of_length_le (le_of_not_lt h)

/-- Entries at indices `≥ k` are untouched by the first `k` steps. -/
theorem getPt_passUpTo_of_le (f : List Pt → ℕ → Pt) {k j : ℕ} (h : k ≤ j) (s : List Pt) :
    getPt (passUpTo f k s) j = getPt s j := by
  induction k with
  | zero => rfl
  | succ k ih =>
    rw [passUpTo_succ, getPt_set_ne _ _ _ (Nat.ne_of_lt (Nat.lt_of_lt_of_le (Nat.lt_succ_self k) h)),
      ih (Nat.le_of_succ_le h)]

/-- Entries at indices `< k` are final: later steps never touch them again. -/
theorem getPt_passUpTo_stable (f : List Pt → ℕ → Pt) {j k m : ℕ} (hjk : j < k) (hkm : k ≤ m)
    (s : List Pt) : getPt (passUpTo f m s) j = getPt (passUpTo f k s) j := by
  induction m, hkm using Nat.le_induction with
  | base => rfl
  | succ m hm ih =>
    rw [passUpTo_succ, getPt_set_ne _ _ _ (Nat.ne_of_gt (Nat.lt_of_lt_of_le hjk hm)), ih]

/-- The Gauss-Seidel characterization: entry `i` of the finished pass is `f`
applied to the state in which all earlier entries already hold their final
values and the entries from `i` on are still the input's. -/
theorem getPt_pass (f : List Pt → ℕ → Pt) (s : List Pt) (i : ℕ) (h : i < s.length) :
    getPt (pass f s) i = f (passUpTo f i s) i := by
  have h1 : getPt (passUpTo f (i + 1) s) i = f (passUpTo f i s) i := by
    rw [passUpTo_succ]
    exact getPt_set_self _ _ (by rw [passUpTo_length]; exact h) _
  rw [pass_eq_passUpTo, getPt_passUpTo_stable f (Nat.lt_succ_self i) h s, h1]

theorem pass_length (f : List Pt → ℕ → Pt) (s : List Pt) :
    (pass f s).length = s.length := passUpTo_length f s.length s

theorem passUpTo_proj {α : Type} (g : Pt → α) (f : List Pt → ℕ → Pt)
    (hf : ∀ t i, g (f t i) = g (getPt t i)) (k : ℕ) (s : List Pt) (j : ℕ) :
    g (getPt (passUpTo f k s) j) = g (getPt s j) := by
  induction k with
  | zero => rfl
  | succ k ih =>
    rw [passUpTo_succ]
    by_cases hkj : k = j
    · subst hkj
      by_cases hk : k < s.length
      · rw [getPt_set_self _ _ (by rw [passUpTo_length]; exact hk), hf,
          getPt_passUpTo_of_le f (le_refl k)]
      · rw [List.set_eq_of_length_le (by rw [passUpTo_length]; exact le_of_not_lt hk), ih]
    · rw [getPt_set_ne _ _ _ hkj, ih]

theorem pass_proj {α : Type} (g : Pt → α) (f : List Pt → ℕ → Pt)
    (hf : ∀ t i, g (f t i) = g (getPt t i)) (s : List Pt) (j : ℕ) :
    g (getPt (pass f s) j) = g (getPt s j) :=
  passUpTo_proj g f hf s.length s j

theorem pass_fixedOf (f : List Pt → ℕ → Pt)
    (hf : ∀ t i, fixedOf (f t i) = fixedOf (getPt t i)) (s : List Pt) (j : ℕ) :
    fixedOf (getPt (pass f s) j) = fixedOf (getPt s j) :=
  pass_proj fixedOf f hf s j

theorem passUpTo_av (f : List Pt → ℕ → Pt)
    (hf : ∀ t i, (f t i).actual_value = (getPt t i).actual_value) (k : ℕ) (s : List Pt) (j : ℕ) :
    av (passUpTo f k s) j = av s j :=
  passUpTo_proj Pt.actual_value f hf k s j

theorem pass_av (f : List Pt → ℕ → Pt)
    (hf : ∀ t i, (f t i).actual_value = (getPt t i).actual_value) (s : List Pt) (j : ℕ) :
    av (pass f s) j = av s j :=
  passUpTo_av f hf s.length s j

/-- A pass whose body fixes index 0 leaves entry 0 unchanged. -/
theorem getPt_pass_zero (f : List Pt → ℕ → Pt) (hf : ∀ t, f t 0 = getPt t 0) (s : List Pt) :
    getPt (pass f s) 0 = getPt s 0 := by
  rcases Nat.eq_zero_or_pos s.length with h | h
  · rw [pass_eq_passUpTo, h]
    rfl
  · rw [getPt_pass f s 0 h, hf]
    rfl

/-! ## Facts about the individual stages -/

theorem calculate_ideal_value_zero (t : List Pt) : calculate_ideal_value t 0 = none := by
  simp [calculate_ideal_value]

theorem sweepAt_zero (it maxIt : ℕ) (t : List Pt) : sweepAt it maxIt t 0 = getPt t 0 := by
  simp [sweepAt, calculate_ideal_value_zero]

theorem preciseAt_zero (t : List Pt) : preciseAt t 0 = getPt t 0 := by
  simp [preciseAt]

theorem chainAt_zero (t : List Pt) : chainAt t 0 = getPt t 0 := by
  simp [chainAt]

theorem fixedOf_sweepAt (it maxIt : ℕ) (t : List Pt) (i : ℕ) :
    fixedOf (sweepAt it maxIt t i) = fixedOf (getPt t i) := by
  unfold sweepAt
  cases h : calculate_ideal_value t i <;> simp [fixedOf]

theorem fixedOf_preciseAt (t : List Pt) (i : ℕ) :
    fixedOf (preciseAt t i) = fixedOf (getPt t i) := by
  simp only [preciseAt]
  split_ifs <;> simp [fixedOf]

theorem fixedOf_chainAt (t : List Pt) (i : ℕ) :
    fixedOf (chainAt t i) = fixedOf (getPt t i) := by
  simp only [chainAt]
  split_ifs <;> simp [fixedOf]

theorem fixedOf_verifyAt (t : List Pt) (i : ℕ) :
    fixedOf (verifyAt t i) = fixedOf (getPt t i) := by
  simp only [verifyAt]
  split_ifs <;> simp [fixedOf]

theorem verifyAt_av (t : List Pt) (i : ℕ) :
    (verifyAt t i).actual_value = (getPt t i).actual_value := by
  simp only [verifyAt]
  split_ifs <;> simp

theorem verifyAllPass_av (s : List Pt) (j : ℕ) : av (verifyAllPass s) j = av s j :=
  pass_av verifyAt verifyAt_av s j

theorem foldl_sweepStep_fst (it maxIt : ℕ) :
    ∀ (l : List ℕ) (t : List Pt) (m : ℚ),
      (l.foldl (sweepStep it maxIt) (t, m)).1 =
        l.foldl (fun u i => u.set i (sweepAt it maxIt u i)) t := by
  intro l
  induction l with
  | nil => intro t m; rfl
  | cons i l ih =>
    intro t m
    cases h : calculate_ideal_value t i with
    | none =>
      have h1 : sweepStep it maxIt (t, m) i = (t, m) := by simp [sweepStep, h]
      have h2 : t.set i (sweepAt it maxIt t i) = t := by
        rw [show sweepAt it maxIt t i = getPt t i from by simp [sweepAt, h], set_getPt_self]
      rw [List.foldl_cons, List.foldl_cons, h1, h2, ih]
    | some e =>
      have h1 : sweepStep it maxIt (t, m) i =
          (t.set i (sweepAt it maxIt t i), max m |e - (getPt t i).actual_value|) := by
        simp [sweepStep, sweepAt, h]
      rw [List.foldl_cons, List.foldl_cons, h1, ih]

/-- The state component of the phase-1 sweep is the generic pass of `sweepAt`. -/
theorem sweepPass_fst (it maxIt : ℕ) (s : List Pt) :
    (sweepPass it maxIt s).1 = pass (sweepAt it maxIt) s :=
  foldl_sweepStep_fst it maxIt (List.range s.length) s 0

/-! ## Length preservation through the pipeline -/

theorem sweepPass_length (it maxIt : ℕ) (s : List Pt) :
    ((sweepPass it maxIt s).1).length = s.length := by
  rw [sweepPass_fst]
  exact pass_length _ _

theorem precise_length (s : List Pt) : (precise_matching_adjustment s).length = s.length :=
  pass_length _ _

theorem chain_length (s : List Pt) : (update_all_chain_effects s).length = s.length :=
  pass_length _ _

theorem verifyAllPass_length (s : List Pt) : (verifyAllPass s).length = s.length :=
  pass_length _ _

theorem sweepBody_length (maxIt it : ℕ) (s : List Pt) :
    ((sweepBody maxIt it s).1).length = s.length := by
  unfold sweepBody
  by_cases h : 10 < it <;>
    simp [h, chain_length, precise_length, sweepPass_length]

theorem sweepLoop_length (maxIt : ℕ) (tol : ℚ) :
    ∀ (rem it : ℕ) (s : List Pt), ((sweepLoop maxIt tol rem it s).1).length = s.length := by
  intro rem
  induction rem with
  | zero => intro it s; rfl
  | succ rem ih =>
    intro it s
    unfold sweepLoop
    by_cases h : (sweepBody maxIt it s).2 < tol <;>
      simp [h, ih, sweepBody_length]

theorem snapMismatch_length (s : List Pt) (m : MInfo) :
    (snapMismatch s m).length = s.length := by
  simp only [snapMismatch]
  split_ifs <;> simp

theorem snapByIndex_length (s : List Pt) (i : ℕ) :
    (snapByIndex s i).length = s.length := by
  simp only [snapByIndex]
  split_ifs <;> simp

theorem snapLoop1_length : ∀ (l : List MInfo) (s : List Pt),
    ((snapLoop1 l s).1).length = s.length := by
  intro l
  induction l with
  | nil => intro s; rfl
  | cons m rest ih =>
    intro s
    unfold snapLoop1
    split_ifs <;> simp [ih, snapMismatch_length]

theorem snapLoop2_length : ∀ (l : List ℕ) (s : List Pt),
    ((snapLoop2 l s).1).length = s.length := by
  intro l
  induction l with
  | nil => intro s; rfl
  | cons i rest ih =>
    intro s
    unfold snapLoop2
    split_ifs <;> simp [ih, snapByIndex_length]

theorem force_final_matching_length (s : List Pt) :
    (force_final_matching s).length = s.length := by
  unfold force_final_matching
  rw [snapLoop2_length, snapLoop1_length]

theorem forceLoop_length : ∀ (fuel : ℕ) (s : List Pt),
    ((forceLoop fuel s).1).length = s.length := by
  intro fuel
  induction fuel with
  | zero => intro s; rfl
  | succ fuel ih =>
    intro s
    simp only [forceLoop]
    split_ifs with h <;> simp [verifyAllPass_length, ih, force_final_matching_length]

theorem calcActualGo_length : ∀ (l : List Obs) (cur : ℚ),
    (calcActualGo l cur).length = l.length := by
  intro l
  induction l with
  | nil => intro cur; rfl
  | cons d rest ih => intro cur; simp [calcActualGo, ih]

theorem calculate_actual_values_length (l : List Obs) (b : ℚ) :
    (calculate_actual_values l b).length = l.length := by
  cases l with
  | nil => rfl
  | cons d rest => simp [calculate_actual_values, calcActualGo_length]

theorem calculate_corrected_values_length (l : List Obs) (b : ℚ) (mi : ℕ) (tol : ℚ) :
    (calculate_corrected_values l b mi tol).length = l.length := by
  cases l with
  | nil => rfl
  | cons d rest =>
    show (verifyAllPass _).length = _
    rw [verifyAllPass_length, forceLoop_length, verifyAllPass_length, sweepLoop_length,
      calculate_actual_values_length]

/-! ## The first point's `actual_value` is never touched -/

theorem sweepPass_av_zero (it maxIt : ℕ) (s : List Pt) :
    av ((sweepPass it maxIt s).1) 0 = av s 0 := by
  rw [sweepPass_fst]
  unfold av
  rw [getPt_pass_zero _ (sweepAt_zero it maxIt) s]

theorem precise_av_zero (s : List Pt) : av (precise_matching_adjustment s) 0 = av s 0 := by
  unfold av precise_matching_adjustment
  rw [getPt_pass_zero _ preciseAt_zero s]

theorem chain_av_zero (s : List Pt) : av (update_all_chain_effects s) 0 = av s 0 := by
  unfold av update_all_chain_effects
  rw [getPt_pass_zero _ chainAt_zero s]

theorem sweepBody_av_zero (maxIt it : ℕ) (s : List Pt) :
    av ((sweepBody maxIt it s).1) 0 = av s 0 := by
  unfold sweepBody
  by_cases h : 10 < it <;>
    simp [h, chain_av_zero, precise_av_zero, sweepPass_av_zero]

theorem sweepLoop_av_zero (maxIt : ℕ) (tol : ℚ) :
    ∀ (rem it : ℕ) (s : List Pt), av ((sweepLoop maxIt tol rem it s).1) 0 = av s 0 := by
  intro rem
  induction rem with
  | zero => intro it s; rfl
  | succ rem ih =>
    intro it s
    unfold sweepLoop
    by_cases h : (sweepBody maxIt it s).2 < tol <;>
      simp [h, ih, sweepBody_av_zero]

theorem snapMismatch_getPt_zero (s : List Pt) (m : MInfo) :
    getPt (snapMismatch s m) 0 = getPt s 0 := by
  by_cases h0 : m.index = 0
  · unfold snapMismatch
    rw [h0]
    simp
  · simp only [snapMismatch]
    split_ifs <;> first | rfl | rw [getPt_set_ne _ _ _ h0]

theorem snapByIndex_getPt_zero (s : List Pt) (i : ℕ) :
    getPt (snapByIndex s i) 0 = getPt s 0 := by
  by_cases h0 : i = 0
  · unfold snapByIndex
    rw [h0]
    simp
  · simp only [snapByIndex]
    split_ifs <;> first | rfl | rw [getPt_set_ne _ _ _ h0]

theorem snapLoop1_getPt_zero : ∀ (l : List MInfo) (s : List Pt),
    getPt ((snapLoop1 l s).1) 0 = getPt s 0 := by
  intro l
  induction l with
  | nil => intro s; rfl
  | cons m rest ih =>
    intro s
    unfold snapLoop1
    split_ifs <;> simp [ih, snapMismatch_getPt_zero]

theorem snapLoop2_getPt_zero : ∀ (l : List ℕ) (s : List Pt),
    getPt ((snapLoop2 l s).1) 0 = getPt s 0 := by
  intro l
  induction l with
  | nil => intro s; rfl
  | cons i rest ih =>
    intro s
    unfold snapLoop2
    split_ifs <;> simp [ih, snapByIndex_getPt_zero]

theorem force_final_matching_av_zero (s : List Pt) :
    av (force_final_matching s) 0 = av s 0 := by
  unfold force_final_matching av
  rw [snapLoop2_getPt_zero, snapLoop1_getPt_zero]

theorem forceLoop_av_zero : ∀ (fuel : ℕ) (s : List Pt),
    av ((forceLoop fuel s).1) 0 = av s 0 := by
  intro fuel
  induction fuel with
  | zero => intro s; rfl
  | succ fuel ih =>
    intro s
    simp only [forceLoop]
    split_ifs with h <;>
      simp [verifyAllPass_av, ih, force_final_matching_av_zero]

theorem calculate_corrected_values_av_zero (l : List Obs) (b : ℚ) (mi : ℕ) (tol : ℚ)
    (h : l ≠ []) : av (calculate_corrected_values l b mi tol) 0 = b := by
  cases l with
  | nil => exact absurd rfl h
  | cons d rest =>
    show av (verifyAllPass _) 0 = b
    rw [verifyAllPass_av, forceLoop_av_zero, verifyAllPass_av, sweepLoop_av_zero]
    rfl

/-! ## Characterizing the verification pass -/

theorem getElem?_eq_some_getPt (s : List Pt) (n : ℕ) (h : n < s.length) :
    s[n]? = some (getPt s n) := by
  rw [getPt_eq_getElem s n h, List.getElem?_eq_getElem h]

/-- `_verify_data_consistency` at `i` reads only the point's non-diagnostic
fields and the two `actual_value`s it divides by. -/
theorem verifyAt_congr (t u : List Pt) (i : ℕ)
    (h0 : nonDiag (getPt t i) = nonDiag (getPt u i))
    (h1 : av t (i - 1) = av u (i - 1)) (h2 : av t (i - 12) = av u (i - 12)) :
    verifyAt t i = verifyAt u i := by
  have e1 : (getPt t i).date = (getPt u i).date := congrArg (fun x => x.1) h0
  have e2 : (getPt t i).month_on_month = (getPt u i).month_on_month :=
    congrArg (fun x => x.2.1) h0
  have e3 : (getPt t i).year_on_year = (getPt u i).year_on_year :=
    congrArg (fun x => x.2.2.1) h0
  have e4 : (getPt t i).growth_rate = (getPt u i).growth_rate :=
    congrArg (fun x => x.2.2.2.1) h0
  have e5 : (getPt t i).actual_value = (getPt u i).actual_value :=
    congrArg (fun x => x.2.2.2.2.1) h0
  have e6 : (getPt t i).filepath = (getPt u i).filepath :=
    congrArg (fun x => x.2.2.2.2.2.1) h0
  have e7 : (getPt t i).corrected = (getPt u i).corrected :=
    congrArg (fun x => x.2.2.2.2.2.2) h0
  simp only [verifyAt]
  rw [e1, e2, e3, e4, e5, e6, e7, h1, h2]

theorem nonDiag_verifyAt (t : List Pt) (i : ℕ) :
    nonDiag (verifyAt t i) = nonDiag (getPt t i) := by
  simp only [verifyAt]
  split_ifs <;> simp [nonDiag]

theorem getPt_verifyAllPass (t : List Pt) (i : ℕ) (h : i < t.length) :
    getPt (verifyAllPass t) i = verifyAt t i := by
  unfold verifyAllPass
  rw [getPt_pass _ _ _ h]
  apply verifyAt_congr
  · rw [getPt_passUpTo_of_le _ (le_refl i)]
  · exact passUpTo_av _ verifyAt_av _ _ _
  · exact passUpTo_av _ verifyAt_av _ _ _

theorem verifyAllPass_nonDiag (s : List Pt) (j : ℕ) :
    nonDiag (getPt (verifyAllPass s) j) = nonDiag (getPt s j) :=
  pass_proj nonDiag verifyAt nonDiag_verifyAt s j

theorem verifyAt_stable (s : List Pt) (i : ℕ) :
    verifyAt (verifyAllPass s) i = verifyAt s i :=
  verifyAt_congr _ _ i (verifyAllPass_nonDiag s i) (verifyAllPass_av s (i - 1))
    (verifyAllPass_av s (i - 12))

/-- Verifying twice in a row is the same as verifying once. -/
theorem verifyAllPass_idem (s : List Pt) : verifyAllPass (verifyAllPass s) = verifyAllPass s := by
  apply List.ext_getElem?
  intro n
  by_cases h : n < s.length
  · rw [getElem?_eq_some_getPt _ n (by rw [verifyAllPass_length, verifyAllPass_length]; exact h),
      getElem?_eq_some_getPt _ n (by rw [verifyAllPass_length]; exact h),
      getPt_verifyAllPass _ n (by rw [verifyAllPass_length]; exact h),
      getPt_verifyAllPass _ n h, verifyAt_stable]
  · have h1 : ∀ u : List Pt, u.length = s.length → u[n]? = none := by
      intro u hu
      rw [List.getElem?_eq_none]
      rw [hu]
      exact le_of_not_lt h
    rw [h1 _ (by rw [verifyAllPass_length, verifyAllPass_length]),
      h1 _ (by rw [verifyAllPass_length])]

/-! ## The fields produced by verification -/

theorem verifyAt_mom_fields (t : List Pt) (i : ℕ) (h : 0 < i) :
    (verifyAt t i).calculated_mom = some (av t i / av t (i - 1) * 100) ∧
      (verifyAt t i).mom_match =
        matchRound (av t i / av t (i - 1) * 100) (getPt t i).month_on_month := by
  unfold verifyAt av
  simp only [if_pos h]
  split_ifs <;> simp

theorem verifyAt_yoy_fields (t : List Pt) (i : ℕ) (h : 12 ≤ i) :
    (verifyAt t i).calculated_yoy = some (av t i / av t (i - 12) * 100) ∧
      (verifyAt t i).yoy_match =
        matchRound (av t i / av t (i - 12) * 100) (getPt t i).year_on_year := by
  unfold verifyAt av
  simp only [if_pos h]
  exact ⟨trivial, trivial⟩

theorem verifyAt_mom_default (t : List Pt) : (verifyAt t 0).mom_match = true := by
  unfold verifyAt
  simp

theorem verifyAt_yoy_default (t : List Pt) (i : ℕ) (h : i < 12) :
    (verifyAt t i).yoy_match = true := by
  unfold verifyAt
  simp only [if_neg (by omega : ¬ 12 ≤ i)]
  split_ifs <;> simp

/-! ## Unrolling the sweep loop -/

theorem statesFrom_shift (maxIt it : ℕ) (s : List Pt) :
    ∀ k, statesFrom maxIt (it + 1) ((sweepBody maxIt it s).1) k = statesFrom maxIt it s (k + 1) := by
  intro k
  induction k with
  | zero =>
    show (sweepBody maxIt it s).1 = (sweepBody maxIt (it + 0) (statesFrom maxIt it s 0)).1
    rfl
  | succ k ih =>
    show (sweepBody maxIt (it + 1 + k) (statesFrom maxIt (it + 1) _ k)).1 =
      (sweepBody maxIt (it + (k + 1)) (statesFrom maxIt it s (k + 1))).1
    rw [ih, show it + 1 + k = it + (k + 1) from by omega]

theorem adjAt_shift (maxIt it : ℕ) (s : List Pt) (k : ℕ) :
    adjAt maxIt (it + 1) ((sweepBody maxIt it s).1) k = adjAt maxIt it s (k + 1) := by
  unfold adjAt
  rw [statesFrom_shift, show it + 1 + k = it + (k + 1) from by omega]

theorem adjAt_zero_eq (maxIt it : ℕ) (s : List Pt) :
    adjAt maxIt it s 0 = (sweepBody maxIt it s).2 := by
  unfold adjAt
  rw [show it + 0 = it from rfl]
  rfl

/-- Behaviour of the `for iteration in range(...)` loop with its
`break`: it runs the body pass after pass, executes at most `rem` passes, and
executes exactly `c` passes where the `c`-th pass is the first whose tracked
`max_adjustment` is below the tolerance (if any pass within the budget is). -/
theorem sweepLoop_spec (maxIt : ℕ) (tol : ℚ) :
    ∀ (rem it : ℕ) (s : List Pt),
      (sweepLoop maxIt tol rem it s).2 ≤ rem ∧
      (sweepLoop maxIt tol rem it s).1 =
        statesFrom maxIt it s (sweepLoop maxIt tol rem it s).2 ∧
      (∀ k, k + 1 < (sweepLoop maxIt tol rem it s).2 → ¬ adjAt maxIt it s k < tol) ∧
      ((sweepLoop maxIt tol rem it s).2 < rem →
        0 < (sweepLoop maxIt tol rem it s).2 ∧
          adjAt maxIt it s ((sweepLoop maxIt tol rem it s).2 - 1) < tol) := by
  intro rem
  induction rem with
  | zero =>
    intro it s
    have he : sweepLoop maxIt tol 0 it s = (s, 0) := rfl
    rw [he]
    exact ⟨le_refl 0, rfl, fun k hk => absurd hk (by omega), fun h => absurd h (by omega)⟩
  | succ rem ih =>
    intro it s
    by_cases h : (sweepBody maxIt it s).2 < tol
    · have he : sweepLoop maxIt tol (rem + 1) it s = ((sweepBody maxIt it s).1, 1) := by
        simp [sweepLoop, h]
      refine ⟨by rw [he]; omega, ?_, ?_, ?_⟩
      · rw [he]
        show (sweepBody maxIt it s).1 = statesFrom maxIt it s 1
        show _ = (sweepBody maxIt (it + 0) (statesFrom maxIt it s 0)).1
        rfl
      · intro k hk
        rw [he] at hk
        omega
      · intro _
        rw [he]
        exact ⟨Nat.one_pos, by rw [show (1 : ℕ) - 1 = 0 from rfl, adjAt_zero_eq]; exact h⟩
    · obtain ⟨ih1, ih2, ih3, ih4⟩ := ih (it + 1) (sweepBody maxIt it s).1
      have he : sweepLoop maxIt tol (rem + 1) it s =
          ((sweepLoop maxIt tol rem (it + 1) (sweepBody maxIt it s).1).1,
            (sweepLoop maxIt tol rem (it + 1) (sweepBody maxIt it s).1).2 + 1) := by
        simp [sweepLoop, h]
      rw [he]
      refine ⟨by omega, ?_, ?_, ?_⟩
      · show _ = statesFrom maxIt it s (_ + 1)
        rw [← statesFrom_shift, ih2]
      · intro k hk
        match k with
        | 0 =>
          rw [adjAt_zero_eq]
          exact h
        | k + 1 =>
          rw [← adjAt_shift]
          exact ih3 k (by omega)
      · intro hlt
        have h4 := ih4 (by omega)
        refine ⟨by omega, ?_⟩
        have : (sweepLoop maxIt tol rem (it + 1) (sweepBody maxIt it s).1).2 + 1 - 1 =
            ((sweepLoop maxIt tol rem (it + 1) (sweepBody maxIt it s).1).2 - 1) + 1 := by
          omega
        rw [this, ← adjAt_shift]
        exact h4.2

/-! ## Bounds and break behaviour of the final forcing loop -/

theorem forceLoop_count_le : ∀ (fuel : ℕ) (s : List Pt), (forceLoop fuel s).2 ≤ fuel := by
  intro fuel
  induction fuel with
  | zero => intro s; exact le_refl 0
  | succ fuel ih =>
    intro s
    simp only [forceLoop]
    split_ifs with h
    · omega
    · have := ih (force_final_matching (verifyAllPass s))
      omega

/-- If the forcing loop broke out through its `total_mismatches <= 2` test,
the final verification reports at most 2 mismatched constraints. -/
theorem forceLoop_break_bound : ∀ (fuel : ℕ) (s : List Pt),
    (forceLoop fuel s).2 < fuel →
      totalMismatchCount (verifyAllPass ((forceLoop fuel s).1)) ≤ 2 := by
  intro fuel
  induction fuel with
  | zero => intro s h; omega
  | succ fuel ih =>
    intro s h
    by_cases hc : totalMismatchCount (verifyAllPass s) ≤ 2
    · have he : forceLoop (fuel + 1) s = (verifyAllPass s, 0) := by
        simp [forceLoop, hc]
      rw [he]
      show totalMismatchCount (verifyAllPass (verifyAllPass s)) ≤ 2
      rw [verifyAllPass_idem]
      exact hc
    · have he : forceLoop (fuel + 1) s =
          ((forceLoop fuel (force_final_matching (verifyAllPass s))).1,
            (forceLoop fuel (force_final_matching (verifyAllPass s))).2 + 1) := by
        simp [forceLoop, hc]
      rw [he] at h ⊢
      exact ih _ (by omega)

/-! ## The immutable fields survive the whole pipeline -/

theorem proj_set {α : Type} (g : Pt → α) (s : List Pt) (i : ℕ) (p : Pt)
    (hp : g p = g (getPt s i)) (j : ℕ) : g (getPt (s.set i p) j) = g (getPt s j) := by
  by_cases hij : i = j
  · subst hij
    by_cases h : i < s.length
    · rw [getPt_set_self _ _ h, hp]
    · rw [List.set_eq_of_length_le (le_of_not_lt h)]
  · rw [getPt_set_ne _ _ _ hij]

theorem snapMismatch_fixedOf (s : List Pt) (m : MInfo) (j : ℕ) :
    fixedOf (getPt (snapMismatch s m) j) = fixedOf (getPt s j) := by
  simp only [snapMismatch]
  split_ifs <;> first | rfl | (apply proj_set; simp [fixedOf])

theorem snapByIndex_fixedOf (s : List Pt) (i j : ℕ) :
    fixedOf (getPt (snapByIndex s i) j) = fixedOf (getPt s j) := by
  simp only [snapByIndex]
  split_ifs <;> first | rfl | (apply proj_set; simp [fixedOf])

theorem snapLoop1_fixedOf : ∀ (l : List MInfo) (s : List Pt) (j : ℕ),
    fixedOf (getPt ((snapLoop1 l s).1) j) = fixedOf (getPt s j) := by
  intro l
  induction l with
  | nil => intro s j; rfl
  | cons m rest ih =>
    intro s j
    simp only [snapLoop1]
    split_ifs
    · rfl
    · rw [ih, snapMismatch_fixedOf]

theorem snapLoop2_fixedOf : ∀ (l : List ℕ) (s : List Pt) (j : ℕ),
    fixedOf (getPt ((snapLoop2 l s).1) j) = fixedOf (getPt s j) := by
  intro l
  induction l with
  | nil => intro s j; rfl
  | cons i rest ih =>
    intro s j
    simp only [snapLoop2]
    split_ifs
    · rfl
    · rw [ih, snapByIndex_fixedOf]

theorem force_final_matching_fixedOf (s : List Pt) (j : ℕ) :
    fixedOf (getPt (force_final_matching s) j) = fixedOf (getPt s j) := by
  unfold force_final_matching
  rw [snapLoop2_fixedOf, snapLoop1_fixedOf]

theorem verifyAllPass_fixedOf (s : List Pt) (j : ℕ) :
    fixedOf (getPt (verifyAllPass s) j) = fixedOf (getPt s j) :=
  pass_proj fixedOf verifyAt fixedOf_verifyAt s j

theorem forceLoop_fixedOf : ∀ (fuel : ℕ) (s : List Pt) (j : ℕ),
    fixedOf (getPt ((forceLoop fuel s).1) j) = fixedOf (getPt s j) := by
  intro fuel
  induction fuel with
  | zero => intro s j; rfl
  | succ fuel ih =>
    intro s j
    simp only [forceLoop]
    split_ifs with h
    · exact verifyAllPass_fixedOf s j
    · rw [ih, force_final_matching_fixedOf, verifyAllPass_fixedOf]

theorem sweepPass_fixedOf (it maxIt : ℕ) (s : List Pt) (j : ℕ) :
    fixedOf (getPt ((sweepPass it maxIt s).1) j) = fixedOf (getPt s j) := by
  rw [sweepPass_fst]
  exact pass_fixedOf _ (fixedOf_sweepAt it maxIt) s j

theorem precise_fixedOf (s : List Pt) (j : ℕ) :
    fixedOf (getPt (precise_matching_adjustment s) j) = fixedOf (getPt s j) :=
  pass_fixedOf _ fixedOf_preciseAt s j

theorem chain_fixedOf (s : List Pt) (j : ℕ) :
    fixedOf (getPt (update_all_chain_effects s) j) = fixedOf (getPt s j) :=
  pass_fixedOf _ fixedOf_chainAt s j

theorem sweepBody_fixedOf (maxIt it : ℕ) (s : List Pt) (j : ℕ) :
    fixedOf (getPt ((sweepBody maxIt it s).1) j) = fixedOf (getPt s j) := by
  unfold sweepBody
  by_cases h : 10 < it <;>
    simp [h, chain_fixedOf, precise_fixedOf, sweepPass_fixedOf]

theorem sweepLoop_fixedOf (maxIt : ℕ) (tol : ℚ) : ∀ (rem it : ℕ) (s : List Pt) (j : ℕ),
    fixedOf (getPt ((sweepLoop maxIt tol rem it s).1) j) = fixedOf (getPt s j) := by
  intro rem
  induction rem with
  | zero => intro it s j; rfl
  | succ rem ih =>
    intro it s j
    simp only [sweepLoop]
    split_ifs with h
    · exact sweepBody_fixedOf maxIt it s j
    · rw [ih, sweepBody_fixedOf]

/-! ## What chain construction writes into each point -/

theorem getPt_cons_succ (p : Pt) (t : List Pt) (i : ℕ) :
    getPt (p :: t) (i + 1) = getPt t i := rfl

theorem calcActualGo_fixedOf : ∀ (l : List Obs) (cur : ℚ) (i : ℕ), i < l.length →
    fixedOf (getPt (calcActualGo l cur) i) = obsFixed (l.getD i dfltObs) := by
  intro l
  induction l with
  | nil => intro cur i h; simp at h
  | cons d rest ih =>
    intro cur i h
    match i with
    | 0 => rfl
    | i + 1 =>
      show fixedOf (getPt (calcActualGo rest _) i) = obsFixed (rest.getD i dfltObs)
      exact ih _ i (by simpa using h)

theorem calculate_actual_values_fixedOf (l : List Obs) (b : ℚ) (i : ℕ) (h : i < l.length) :
    fixedOf (getPt (calculate_actual_values l b) i) = obsFixed (l.getD i dfltObs) := by
  cases l with
  | nil => simp at h
  | cons d rest =>
    match i with
    | 0 => rfl
    | i + 1 =>
      show fixedOf (getPt (calcActualGo rest b) i) = obsFixed (rest.getD i dfltObs)
      exact calcActualGo_fixedOf rest b i (by simpa using h)

theorem calculate_corrected_values_fixedOf (l : List Obs) (b : ℚ) (mi : ℕ) (tol : ℚ)
    (i : ℕ) (h : i < l.length) :
    fixedOf (getPt (calculate_corrected_values l b mi tol) i) = obsFixed (l.getD i dfltObs) := by
  cases l with
  | nil => simp at h
  | cons d rest =>
    show fixedOf (getPt (verifyAllPass _) i) = _
    rw [verifyAllPass_fixedOf, forceLoop_fixedOf, verifyAllPass_fixedOf, sweepLoop_fixedOf]
    exact calculate_actual_values_fixedOf (d :: rest) b i h

/-! ## The recurrence computed by chain construction -/

theorem calcActualGo_av_zero (e : Obs) (rest : List Obs) (cur : ℚ) :
    av (calcActualGo (e :: rest) cur) 0 = cur * (1 + (e.month_on_month - 100) / 100) := rfl

theorem calcActualGo_av_succ : ∀ (l : List Obs) (cur : ℚ) (i : ℕ), i + 1 < l.length →
    av (calcActualGo l cur) (i + 1) =
      av (calcActualGo l cur) i * (1 + ((l.getD (i + 1) dfltObs).month_on_month - 100) / 100) := by
  intro l
  induction l with
  | nil => intro cur i h; simp at h
  | cons d rest ih =>
    intro cur i h
    match i with
    | 0 =>
      have hr : rest.length ≠ 0 := by
        simp only [List.length_cons] at h
        omega
      match rest, hr with
      | e :: rest2, _ => rfl
    | i + 1 =>
      show av (calcActualGo rest _) (i + 1) = av (calcActualGo rest _) i * _
      exact ih _ i (by simpa using h)

theorem calculate_actual_values_av_zero (l : List Obs) (b : ℚ) (h : l ≠ []) :
    av (calculate_actual_values l b) 0 = b := by
  cases l with
  | nil => exact absurd rfl h
  | cons d rest => rfl

theorem calculate_actual_values_rec (l : List Obs) (b : ℚ) (i : ℕ) (h1 : 0 < i)
    (h2 : i < l.length) :
    av (calculate_actual_values l b) i =
      av (calculate_actual_values l b) (i - 1) *
        (1 + ((l.getD i dfltObs).month_on_month - 100) / 100) := by
  cases l with
  | nil => simp at h2
  | cons d rest =>
    match i, h1 with
    | 1, _ =>
      have hr : rest.length ≠ 0 := by
        simp only [List.length_cons] at h2
        omega
      match rest, hr with
      | e :: rest2, _ => rfl
    | i + 2, _ =>
      show av (calcActualGo rest b) (i + 1) = av (calcActualGo rest b) i * _
      exact calcActualGo_av_succ rest b i
        (by simp only [List.length_cons] at h2; omega)

theorem calcActualGo_mom_only : ∀ (l1 l2 : List Obs) (cur : ℚ),
    l1.map (fun o => o.month_on_month) = l2.map (fun o => o.month_on_month) →
      (calcActualGo l1 cur).map (fun p => p.actual_value) =
        (calcActualGo l2 cur).map (fun p => p.actual_value) := by
  intro l1
  induction l1 with
  | nil =>
    intro l2 cur h
    have : l2 = [] := by
      cases l2 with
      | nil => rfl
      | cons e l2 => simp at h
    rw [this]
  | cons d l1 ih =>
    intro l2 cur h
    cases l2 with
    | nil => simp at h
    | cons e l2 =>
      simp only [List.map_cons, List.cons.injEq] at h
      simp only [calcActualGo, List.map_cons, mkPt]
      rw [h.1]
      exact congrArg (List.cons _) (ih l2 _ h.2)

theorem calculate_actual_values_mom_only (l1 l2 : List Obs) (b : ℚ)
    (h : l1.map (fun o => o.month_on_month) = l2.map (fun o => o.month_on_month)) :
    (calculate_actual_values l1 b).map (fun p => p.actual_value) =
      (calculate_actual_values l2 b).map (fun p => p.actual_value) := by
  cases l1 with
  | nil =>
    have : l2 = [] := by
      cases l2 with
      | nil => rfl
      | cons e l2 => simp at h
    rw [this]
  | cons d l1 =>
    cases l2 with
    | nil => simp at h
    | cons e l2 =>
      simp only [List.map_cons, List.cons.injEq] at h
      simp only [calculate_actual_values, List.map_cons, mkPt]
      exact congrArg (List.cons _) (calcActualGo_mom_only l1 l2 b h.2)

/-! ## Remaining helper lemmas -/

theorem matchRound_iff (a b : ℚ) : matchRound a b = true ↔ |roundTo1 a - b| < 1 / 20 := by
  simp [matchRound]

theorem getPt_default (s : List Pt) (i : ℕ) (h : s.length ≤ i) : getPt s i = dfltPt := by
  simp [getPt, List.getD_eq_getElem?_getD, List.getElem?_eq_none h]

theorem snapLoop1_count_le : ∀ (l : List MInfo) (s : List Pt), (snapLoop1 l s).2 ≤ l.length := by
  intro l
  induction l with
  | nil => intro s; exact Nat.le_refl 0
  | cons m rest ih =>
    intro s
    simp only [snapLoop1]
    split_ifs
    · simp
    · have := ih (snapMismatch s m)
      simp only [List.length_cons]
      omega

theorem snapLoop2_count_le : ∀ (l : List ℕ) (s : List Pt), (snapLoop2 l s).2 ≤ l.length := by
  intro l
  induction l with
  | nil => intro s; exact Nat.le_refl 0
  | cons i rest ih =>
    intro s
    simp only [snapLoop2]
    split_ifs
    · simp
    · have := ih (snapByIndex s i)
      simp only [List.length_cons]
      omega

theorem snapLoop1_short (l : List MInfo) (s : List Pt) (h : l.length ≤ 2) :
    (snapLoop1 l s).1 = s := by
  match l with
  | [] => rfl
  | [a] => rfl
  | [a, b] => rfl
  | a :: b :: c :: l' => simp at h

theorem snapLoop2_short (l : List ℕ) (s : List Pt) (h : l.length ≤ 2) :
    (snapLoop2 l s).1 = s := by
  match l with
  | [] => rfl
  | [a] => rfl
  | [a, b] => rfl
  | a :: b :: c :: l' => simp at h

theorem calculate_ideal_value_mom (u : List Pt) (i : ℕ) (h1 : 0 < i) (h2 : i < 12) :
    calculate_ideal_value u i =
      some (av u (i - 1) * (getPt u i).month_on_month / 100) := by
  simp only [calculate_ideal_value]
  rw [if_pos h1, if_neg (show ¬ (12 : ℕ) ≤ i by omega)]

theorem calculate_ideal_value_both (u : List Pt) (i : ℕ) (h : 12 ≤ i) :
    calculate_ideal_value u i =
      some (av u (i - 1) * (getPt u i).month_on_month / 100 * (3 / 10) +
        av u (i - 12) * (getPt u i).year_on_year / 100 * (7 / 10)) := by
  simp only [calculate_ideal_value]
  rw [if_pos (show 0 < i by omega), if_pos h]

theorem roundTo1_eq_round (q : ℚ) : roundTo1 q = ((round (10 * q) : ℤ) : ℚ) / 10 := by
  have h : ((10 * q + 1 / 2).floor : ℤ) = ⌊(10 * q + 1 / 2 : ℚ)⌋ := by
    rw [Rat.floor_def, Rat.floor_def']
  rw [roundTo1, h, round_eq]

/-! ## Claim C5: chain construction -/

/-- C5: `calculate_actual_values` returns `[]` for an empty input; otherwise
one point per observation with `actual_value[0] = base_value` and, for `i > 0`,
`actual_value[i] = actual_value[i-1] * (1 + (month_on_month[i] - 100) / 100)`,
never reading `year_on_year`; for MoM `[100.0, 100.5]` and base 100 it yields
actual values `[100.0, 100.5]`. -/
theorem C5_chain_construction :
    (∀ b : ℚ, calculate_actual_values [] b = []) ∧
    (∀ (l : List Obs) (b : ℚ), (calculate_actual_values l b).length = l.length) ∧
    (∀ (l : List Obs) (b : ℚ), l ≠ [] → av (calculate_actual_values l b) 0 = b) ∧
    (∀ (l : List Obs) (b : ℚ) (i : ℕ), 0 < i → i < l.length →
      av (calculate_actual_values l b) i =
        av (calculate_actual_values l b) (i - 1) *
          (1 + ((l.getD i dfltObs).month_on_month - 100) / 100)) ∧
    (∀ (l1 l2 : List Obs) (b : ℚ),
      l1.map (fun o => o.month_on_month) = l2.map (fun o => o.month_on_month) →
        (calculate_actual_values l1 b).map (fun p => p.actual_value) =
          (calculate_actual_values l2 b).map (fun p => p.actual_value)) ∧
    (calculate_actual_values obsW2 100).map (fun p => p.actual_value) = [100, 1005 / 10] :=
  ⟨fun _ => rfl, calculate_actual_values_length, calculate_actual_values_av_zero,
   calculate_actual_values_rec, calculate_actual_values_mom_only,
   by with_unfolding_all rfl⟩

/-- Witness for C5: the recurrence applied to the two-point scenario series. -/
theorem C5_chain_construction_witness :
    av (calculate_actual_values obsW2 100) 1 =
      av (calculate_actual_values obsW2 100) 0 *
        (1 + ((obsW2.getD 1 dfltObs).month_on_month - 100) / 100) :=
  C5_chain_construction.2.2.2.1 obsW2 100 1 (by omega) (by simp [obsW2])

/-! ## Claim C9: the immutable fields -/

/-- C9: the output has one point per observation, and every output point keeps
the input observation's `date`, `month_on_month` and `year_on_year`, with
`growth_rate = (month_on_month - 100) / 100`; no correction or verification
stage rewrites them.  (The embedding is pure, so the input list itself is
trivially unmodified.) -/
theorem C9_immutable_fields (l : List Obs) (b : ℚ) (mi : ℕ) (tol : ℚ) (i : ℕ)
    (h : i < l.length) :
    (calculate_corrected_values l b mi tol).length = l.length ∧
    (getPt (calculate_corrected_values l b mi tol) i).date = (l.getD i dfltObs).date ∧
    (getPt (calculate_corrected_values l b mi tol) i).month_on_month =
      (l.getD i dfltObs).month_on_month ∧
    (getPt (calculate_corrected_values l b mi tol) i).year_on_year =
      (l.getD i dfltObs).year_on_year ∧
    (getPt (calculate_corrected_values l b mi tol) i).growth_rate =
      ((l.getD i dfltObs).month_on_month - 100) / 100 := by
  have hf := calculate_corrected_values_fixedOf l b mi tol i h
  exact ⟨calculate_corrected_values_length l b mi tol,
    congrArg (fun x => x.1) hf, congrArg (fun x => x.2.1) hf,
    congrArg (fun x => x.2.2.1) hf, congrArg (fun x => x.2.2.2) hf⟩

/-- Witness for C9 at the two-point series. -/
theorem C9_immutable_fields_witness :
    (getPt (calculate_corrected_values obsW2 100 200 (1 / 1000)) 1).month_on_month =
      (obsW2.getD 1 dfltObs).month_on_month :=
  (C9_immutable_fields obsW2 100 200 (1 / 1000) 1 (by simp [obsW2])).2.2.1

/-! ## Claim C8: termination bounds -/

/-- C8: the sweep performs at most `max_iterations` passes, the final
correction performs at most 5 rounds, and each snapping loop pops at most as
many entries as its (finite) mismatch list holds — in the embedding all loops
are structurally recursive, so `calculate_corrected_values` is total by
construction. -/
theorem C8_termination_bounds :
    (∀ (maxIt : ℕ) (tol : ℚ) (s : List Pt), (sweepLoop maxIt tol maxIt 0 s).2 ≤ maxIt) ∧
    (∀ s : List Pt, (forceLoop 5 s).2 ≤ 5) ∧
    (∀ (l : List MInfo) (s : List Pt), (snapLoop1 l s).2 ≤ l.length) ∧
    (∀ (l : List ℕ) (s : List Pt), (snapLoop2 l s).2 ≤ l.length) :=
  ⟨fun maxIt tol s => (sweepLoop_spec maxIt tol maxIt 0 s).1,
   forceLoop_count_le 5, snapLoop1_count_le, snapLoop2_count_le⟩

theorem sweepAt_of_ideal (it maxIt : ℕ) (t : List Pt) (i : ℕ) (e : ℚ)
    (h : calculate_ideal_value t i = some e) :
    (sweepAt it maxIt t i).actual_value =
      (getPt t i).actual_value +
        (e - (getPt t i).actual_value) * damping_factor it maxIt := by
  unfold sweepAt
  rw [h]

/-! ## Claim C3: one pass of the damped sweep -/

/-- C3: a phase-1 pass visits points in increasing index order over one
mutable buffer, so the `actual_value[i-1]` (and `actual_value[i-12]`) read at
point `i` is the value already updated earlier in that same pass (which is
its final value for the pass); the ideal value is the MoM-implied value when
only `i > 0` applies, and `0.3 * MoM-implied + 0.7 * YoY-implied` when both
apply (YoY-only is impossible since `i >= 12` implies `i > 0`); point 0 is
untouched; the update is `av[i] += (ideal - av[i]) * max(0.1, 0.8 * (1 -
iteration / max_iterations))`. -/
theorem C3_sweep_pass (it maxIt : ℕ) (s : List Pt) (i : ℕ) (hi : i < s.length) :
    av ((sweepPass it maxIt s).1) 0 = av s 0 ∧
    (0 < i → i < 12 →
      av ((sweepPass it maxIt s).1) i =
        av s i +
          (av ((sweepPass it maxIt s).1) (i - 1) * (getPt s i).month_on_month / 100
            - av s i) * damping_factor it maxIt) ∧
    (12 ≤ i →
      av ((sweepPass it maxIt s).1) i =
        av s i +
          (av ((sweepPass it maxIt s).1) (i - 1) * (getPt s i).month_on_month / 100 * (3 / 10)
            + av ((sweepPass it maxIt s).1) (i - 12) * (getPt s i).year_on_year / 100 * (7 / 10)
            - av s i) * damping_factor it maxIt) := by
  rw [sweepPass_fst]
  have hstab : ∀ j, j < i →
      av (passUpTo (sweepAt it maxIt) i s) j = av (pass (sweepAt it maxIt) s) j := by
    intro j hj
    unfold av
    rw [pass_eq_passUpTo, getPt_passUpTo_stable _ hj (le_of_lt hi)]
  have hcur : getPt (passUpTo (sweepAt it maxIt) i s) i = getPt s i :=
    getPt_passUpTo_of_le _ (le_refl i) s
  have hmain : av (pass (sweepAt it maxIt) s) i =
      (sweepAt it maxIt (passUpTo (sweepAt it maxIt) i s) i).actual_value := by
    unfold av
    rw [getPt_pass _ _ _ hi]
  refine ⟨?_, ?_, ?_⟩
  · unfold av
    rw [getPt_pass_zero _ (sweepAt_zero it maxIt) s]
  · intro h1 h2
    have hid := calculate_ideal_value_mom (passUpTo (sweepAt it maxIt) i s) i h1 h2
    rw [hstab (i - 1) (by omega), hcur] at hid
    rw [hmain, sweepAt_of_ideal it maxIt _ i _ hid, hcur]
    rfl
  · intro h12
    have hid := calculate_ideal_value_both (passUpTo (sweepAt it maxIt) i s) i h12
    rw [hstab (i - 1) (by omega), hstab (i - 12) (by omega), hcur] at hid
    rw [hmain, sweepAt_of_ideal it maxIt _ i _ hid, hcur]
    rfl

/-- Witness for C3: the both-constraints case at index 12 of a concrete
13-point state. -/
theorem C3_sweep_pass_witness :
    av ((sweepPass 0 200 stW13).1) 12 =
      av stW13 12 +
        (av ((sweepPass 0 200 stW13).1) (12 - 1) * (getPt stW13 12).month_on_month / 100 * (3 / 10)
          + av ((sweepPass 0 200 stW13).1) (12 - 12) * (getPt stW13 12).year_on_year / 100 * (7 / 10)
          - av stW13 12) * damping_factor 0 200 :=
  (C3_sweep_pass 0 200 stW13 12 (by simp [stW13])).2.2 (by omega)

/-! ## Claim C2: invariants of the returned series -/

/-- C2: in a non-empty result, `actual_value[0]` is the caller's base value;
for `0 < i < length`, `calculated_mom[i] = actual_value[i] / actual_value[i-1]
* 100` and `mom_match[i]` holds iff `|round(calculated_mom[i], 1) -
month_on_month[i]| < 0.05`; for `12 <= i < length` the analogous YoY fields;
`mom_match[0]` is true and `yoy_match[i]` is true for every `i < 12`. -/
theorem C2_final_invariants (l : List Obs) (b : ℚ) (mi : ℕ) (tol : ℚ) (hne : l ≠ []) :
    av (calculate_corrected_values l b mi tol) 0 = b ∧
    (∀ i, 0 < i → i < (calculate_corrected_values l b mi tol).length →
      (getPt (calculate_corrected_values l b mi tol) i).calculated_mom =
        some (av (calculate_corrected_values l b mi tol) i /
          av (calculate_corrected_values l b mi tol) (i - 1) * 100) ∧
      ((getPt (calculate_corrected_values l b mi tol) i).mom_match = true ↔
        |roundTo1 (av (calculate_corrected_values l b mi tol) i /
            av (calculate_corrected_values l b mi tol) (i - 1) * 100) -
          (getPt (calculate_corrected_values l b mi tol) i).month_on_month| < 1 / 20)) ∧
    (∀ i, 12 ≤ i → i < (calculate_corrected_values l b mi tol).length →
      (getPt (calculate_corrected_values l b mi tol) i).calculated_yoy =
        some (av (calculate_corrected_values l b mi tol) i /
          av (calculate_corrected_values l b mi tol) (i - 12) * 100) ∧
      ((getPt (calculate_corrected_values l b mi tol) i).yoy_match = true ↔
        |roundTo1 (av (calculate_corrected_values l b mi tol) i /
            av (calculate_corrected_values l b mi tol) (i - 12) * 100) -
          (getPt (calculate_corrected_values l b mi tol) i).year_on_year| < 1 / 20)) ∧
    (getPt (calculate_corrected_values l b mi tol) 0).mom_match = true ∧
    (∀ i, i < 12 → (getPt (calculate_corrected_values l b mi tol) i).yoy_match = true) := by
  match l, hne with
  | d :: rest, _ =>
    set t := (forceLoop 5 (verifyAllPass
      (sweepLoop mi tol mi 0 (calculate_actual_values (d :: rest) b)).1)).1 with ht
    have hr : calculate_corrected_values (d :: rest) b mi tol = verifyAllPass t := rfl
    have hlen : (calculate_corrected_values (d :: rest) b mi tol).length = t.length := by
      rw [hr, verifyAllPass_length]
    have hav : ∀ j, av (calculate_corrected_values (d :: rest) b mi tol) j = av t j := by
      intro j
      rw [hr]
      exact verifyAllPass_av t j
    have hget : ∀ i, i < t.length →
        getPt (calculate_corrected_values (d :: rest) b mi tol) i = verifyAt t i := by
      intro i hi
      rw [hr]
      exact getPt_verifyAllPass t i hi
    have hmom : ∀ i, i < t.length →
        (getPt (calculate_corrected_values (d :: rest) b mi tol) i).month_on_month =
          (getPt t i).month_on_month := by
      intro i hi
      rw [hr]
      exact congrArg (fun x => x.2.1) (verifyAllPass_fixedOf t i)
    have hyoy : ∀ i, i < t.length →
        (getPt (calculate_corrected_values (d :: rest) b mi tol) i).year_on_year =
          (getPt t i).year_on_year := by
      intro i hi
      rw [hr]
      exact congrArg (fun x => x.2.2.1) (verifyAllPass_fixedOf t i)
    refine ⟨calculate_corrected_values_av_zero _ b mi tol (by simp), ?_, ?_, ?_, ?_⟩
    · intro i h1 h2
      rw [hlen] at h2
      have hm := verifyAt_mom_fields t i h1
      constructor
      · rw [hget i h2, hm.1, hav i, hav (i - 1)]
      · rw [hget i h2, hm.2, hav i, hav (i - 1), ← hmom i h2, hget i h2]
        exact matchRound_iff _ _
    · intro i h1 h2
      rw [hlen] at h2
      have hm := verifyAt_yoy_fields t i h1
      constructor
      · rw [hget i h2, hm.1, hav i, hav (i - 12)]
      · rw [hget i h2, hm.2, hav i, hav (i - 12), ← hyoy i h2, hget i h2]
        exact matchRound_iff _ _
    · have h0 : 0 < t.length := by
        rw [ht, forceLoop_length, verifyAllPass_length, sweepLoop_length,
          calculate_actual_values_length]
        simp
      rw [hget 0 h0]
      exact verifyAt_mom_default t
    · intro i h1
      by_cases h2 : i < t.length
      · rw [hget i h2]
        exact verifyAt_yoy_default t i h1
      · rw [hr]
        unfold verifyAllPass
        rw [getPt_default _ i (by rw [pass_length]; omega)]
        rfl

/-- Witness for C2: the single-point series. -/
theorem C2_final_invariants_witness :
    av (calculate_corrected_values obsW1 100 200 (1 / 1000)) 0 = 100 ∧
    (getPt (calculate_corrected_values obsW1 100 200 (1 / 1000)) 0).mom_match = true ∧
    (getPt (calculate_corrected_values obsW1 100 200 (1 / 1000)) 3).yoy_match = true :=
  ⟨(C2_final_invariants obsW1 100 200 (1 / 1000) (by simp [obsW1])).1,
   (C2_final_invariants obsW1 100 200 (1 / 1000) (by simp [obsW1])).2.2.2.1,
   (C2_final_invariants obsW1 100 200 (1 / 1000) (by simp [obsW1])).2.2.2.2 3 (by omega)⟩

/-! ## Claim C4: what the sweep tracks and when it stops -/

set_option maxRecDepth 1000000 in
set_option maxHeartbeats 4000000 in
/-- Counterexample to C4 as stated: on `obsC4` the largest damped applied
change of the first pass, `max |ideal - value| * damping`, is already below
the default tolerance `0.001` (first conjunct), so under the claim the sweep
would stop after 1 pass; but the code tracks `max |ideal - value|` before
damping, which is still at least the tolerance (second conjunct), and the
sweep in fact executes 2 passes (third conjunct).  (The damping factor is one
positive constant per pass, so the largest damped per-point change equals the
tracked maximum times the damping factor.) -/
theorem C4_counterexample :
    adjAt 200 0 (calculate_actual_values obsC4 100) 0 * damping_factor 0 200 < 1 / 1000 ∧
    ¬ adjAt 200 0 (calculate_actual_values obsC4 100) 0 < 1 / 1000 ∧
    (sweepLoop 200 (1 / 1000) 200 0 (calculate_actual_values obsC4 100)).2 = 2 :=
  ⟨of_decide_eq_true (by with_unfolding_all rfl),
   of_decide_eq_true (by with_unfolding_all rfl),
   of_decide_eq_true (by with_unfolding_all rfl)⟩

/-- C4 amended: each pass tracks the largest `|ideal - actual_value|` gap
before damping (`adjAt`), and the sweep stops before exhausting
`max_iterations` exactly when that tracked maximum falls below the tolerance:
it executes at most `max_iterations` passes; every pass except possibly the
last had its tracked maximum at least the tolerance; if it stopped early, the
last executed pass's tracked maximum was below the tolerance; and the final
state is the body iterated for exactly the executed number of passes. -/
theorem C4_amended (maxIt : ℕ) (tol : ℚ) (s : List Pt) :
    (sweepLoop maxIt tol maxIt 0 s).2 ≤ maxIt ∧
    (∀ k, k + 1 < (sweepLoop maxIt tol maxIt 0 s).2 → ¬ adjAt maxIt 0 s k < tol) ∧
    ((sweepLoop maxIt tol maxIt 0 s).2 < maxIt →
      0 < (sweepLoop maxIt tol maxIt 0 s).2 ∧
        adjAt maxIt 0 s ((sweepLoop maxIt tol maxIt 0 s).2 - 1) < tol) ∧
    (sweepLoop maxIt tol maxIt 0 s).1 =
      statesFrom maxIt 0 s (sweepLoop maxIt tol maxIt 0 s).2 := by
  obtain ⟨h1, h2, h3, h4⟩ := sweepLoop_spec maxIt tol maxIt 0 s
  exact ⟨h1, h3, h4, h2⟩

set_option maxRecDepth 1000000 in
set_option maxHeartbeats 4000000 in
/-- Witness for C4 amended: on `obsC4` the sweep stops early, and the tracked
maximum of its last executed pass is below the tolerance. -/
theorem C4_amended_witness :
    0 < (sweepLoop 200 (1 / 1000) 200 0 (calculate_actual_values obsC4 100)).2 ∧
    adjAt 200 0 (calculate_actual_values obsC4 100)
      ((sweepLoop 200 (1 / 1000) 200 0 (calculate_actual_values obsC4 100)).2 - 1) < 1 / 1000 :=
  (C4_amended 200 (1 / 1000) (calculate_actual_values obsC4 100)).2.2.1
    (of_decide_eq_true (by with_unfolding_all rfl))

/-! ## Claim C6: the precise-matching pass -/

set_option maxRecDepth 1000000 in
set_option maxHeartbeats 4000000 in
/-- Counterexample to C6 as stated: at index 12 of `s6cex` both nudges fire
(value 101, both implied values 100).  The pass produces
`101 + (100 - 101) * 0.3 + (100 - 101) * 0.5 = 100.2`: the second (YoY) nudge
is half of the gap measured from the snapshot value `101`, not from the value
`100.7` left by the first nudge, which would give `100.35`. -/
theorem C6_counterexample :
    av (precise_matching_adjustment s6cex) 12 =
      101 + (100 - 101) * (3 / 10) + (100 - 101) * (1 / 2) ∧
    ¬ av (precise_matching_adjustment s6cex) 12 =
      (101 + (100 - 101) * (3 / 10)) +
        (100 - (101 + (100 - 101) * (3 / 10))) * (1 / 2) :=
  ⟨of_decide_eq_true (by with_unfolding_all rfl),
   of_decide_eq_true (by with_unfolding_all rfl)⟩

/-- C6 amended: the precise-matching pass runs inside every sweep iteration
whose index exceeds 10 (last two conjuncts); it visits points in index order,
and at point `i` it takes the snapshot `v` of the point's value: if `i > 0`
and the rounded `v / prev * 100` misses the published MoM by at least 0.05 it
adds 30% of the gap from `v` to the exact MoM-implied value; then, if
`i >= 12` and the rounded YoY — computed from the same snapshot `v` — misses
by at least 0.05, it adds 50% of the gap measured from the snapshot `v` (not
from the value the MoM nudge just produced) to the value left by the MoM
nudge. -/
theorem C6_amended (s : List Pt) (i : ℕ) (hi : i < s.length) :
    av (precise_matching_adjustment s) 0 = av s 0 ∧
    (0 < i → i < 12 →
      av (precise_matching_adjustment s) i =
        (if 1 / 20 ≤ |roundTo1 (av s i / av (precise_matching_adjustment s) (i - 1) * 100) -
            (getPt s i).month_on_month| then
          av s i + (av (precise_matching_adjustment s) (i - 1) *
            (getPt s i).month_on_month / 100 - av s i) * (3 / 10)
        else av s i)) ∧
    (12 ≤ i →
      av (precise_matching_adjustment s) i =
        (let v := av s i
         let prev := av (precise_matching_adjustment s) (i - 1)
         let prevY := av (precise_matching_adjustment s) (i - 12)
         let v1 := if 1 / 20 ≤ |roundTo1 (v / prev * 100) - (getPt s i).month_on_month| then
             v + (prev * (getPt s i).month_on_month / 100 - v) * (3 / 10)
           else v
         if 1 / 20 ≤ |roundTo1 (v / prevY * 100) - (getPt s i).year_on_year| then
           v1 + (prevY * (getPt s i).year_on_year / 100 - v) * (1 / 2)
         else v1)) ∧
    (∀ (maxIt it : ℕ) (u : List Pt), 10 < it →
      (sweepBody maxIt it u).1 =
        update_all_chain_effects (precise_matching_adjustment (sweepPass it maxIt u).1)) ∧
    (∀ (maxIt it : ℕ) (u : List Pt), it ≤ 10 →
      (sweepBody maxIt it u).1 = update_all_chain_effects (sweepPass it maxIt u).1) := by
  have hstab : ∀ j, j < i →
      av (passUpTo preciseAt i s) j = av (precise_matching_adjustment s) j := by
    intro j hj
    unfold av precise_matching_adjustment
    rw [pass_eq_passUpTo, getPt_passUpTo_stable _ hj (le_of_lt hi)]
  have hcur : getPt (passUpTo preciseAt i s) i = getPt s i :=
    getPt_passUpTo_of_le _ (le_refl i) s
  have hmain : av (precise_matching_adjustment s) i =
      (preciseAt (passUpTo preciseAt i s) i).actual_value := by
    unfold av precise_matching_adjustment
    rw [getPt_pass _ _ _ hi]
  refine ⟨?_, ?_, ?_, ?_, ?_⟩
  · unfold av precise_matching_adjustment
    rw [getPt_pass_zero _ preciseAt_zero s]
  · intro h1 h2
    rw [hmain]
    simp only [preciseAt]
    rw [hcur, hstab (i - 1) (by omega), if_pos h1, if_neg (show ¬ 12 ≤ i by omega)]
    simp only [av]
    split_ifs <;> rfl
  · intro h12
    rw [hmain]
    simp only [preciseAt]
    rw [hcur, hstab (i - 1) (by omega), hstab (i - 12) (by omega),
      if_pos (show 0 < i by omega), if_pos h12]
    simp only [av]
    split_ifs <;> rfl
  · intro maxIt it u h
    simp [sweepBody, h]
  · intro maxIt it u h
    simp only [sweepBody]
    rw [if_neg (show ¬ 10 < it by omega)]

/-- Witness for C6 amended: the both-nudges case at index 12 of `s6cex`. -/
theorem C6_amended_witness :
    av (precise_matching_adjustment s6cex) 12 =
      (let v := av s6cex 12
       let prev := av (precise_matching_adjustment s6cex) (12 - 1)
       let prevY := av (precise_matching_adjustment s6cex) (12 - 12)
       let v1 := if 1 / 20 ≤ |roundTo1 (v / prev * 100) - (getPt s6cex 12).month_on_month| then
           v + (prev * (getPt s6cex 12).month_on_month / 100 - v) * (3 / 10)
         else v
       if 1 / 20 ≤ |roundTo1 (v / prevY * 100) - (getPt s6cex 12).year_on_year| then
         v1 + (prevY * (getPt s6cex 12).year_on_year / 100 - v) * (1 / 2)
       else v1) :=
  (C6_amended s6cex 12 (by simp [s6cex])).2.2.1 (by omega)

/-! ## Claim C10: mismatch points vs mismatch constraints -/

set_option maxRecDepth 1000000 in
set_option maxHeartbeats 4000000 in
/-- C10: the snapping loops of `_force_final_matching` stop as soon as their
mismatch list holds at most 2 entries, one entry per mismatching *point* (a
point failing both constraints gives one entry), while the round-level test
of `calculate_corrected_values` counts failed *constraints* (such a point
counts twice).  On `s10cex` exactly two points mismatch, each failing both
constraints: `_force_final_matching` leaves the state unchanged while the
round-level count is 4 > 2. -/
theorem C10_point_vs_constraint_count :
    (∀ (l : List MInfo) (s : List Pt), l.length ≤ 2 → (snapLoop1 l s).1 = s) ∧
    (∀ (l : List ℕ) (s : List Pt), l.length ≤ 2 → (snapLoop2 l s).1 = s) ∧
    (mismatchScan (verifyAllPass s10cex)).length = 2 ∧
    (mismatchScan (verifyAllPass s10cex)).all (fun m => m.hasMom && m.hasYoy) = true ∧
    force_final_matching (verifyAllPass s10cex) = verifyAllPass s10cex ∧
    totalMismatchCount (verifyAllPass s10cex) = 4 ∧
    2 < 4 := by
  have e1 : (sortByPriorityDesc (mismatchScan (verifyAllPass s10cex))).length = 2 :=
    of_decide_eq_true (by with_unfolding_all rfl)
  have e2 : (rescanBad (verifyAllPass s10cex)).length = 2 :=
    of_decide_eq_true (by with_unfolding_all rfl)
  refine ⟨snapLoop1_short, snapLoop2_short, ?_, ?_, ?_, ?_, by omega⟩
  · exact of_decide_eq_true (by with_unfolding_all rfl)
  · exact of_decide_eq_true (by with_unfolding_all rfl)
  · unfold force_final_matching
    rw [snapLoop1_short _ _ (by rw [e1]), snapLoop2_short _ _ (by rw [e2])]
  · exact of_decide_eq_true (by with_unfolding_all rfl)

set_option maxRecDepth 1000000 in
set_option maxHeartbeats 4000000 in
/-- Witness for C10: the first snapping loop with a two-entry list leaves the
state unchanged. -/
theorem C10_point_vs_constraint_count_witness :
    (snapLoop1 (mismatchScan (verifyAllPass s10cex)) (verifyAllPass s10cex)).1 =
      verifyAllPass s10cex :=
  C10_point_vs_constraint_count.1 (mismatchScan (verifyAllPass s10cex)) (verifyAllPass s10cex)
    (by rw [C10_point_vs_constraint_count.2.2.1])

/-! ## Claim C7: exceptional behaviour on degenerate input -/

set_option maxRecDepth 1000000 in
/-- Counterexample to C7 as stated: a well-typed single-observation series
whose `month_on_month` is absent makes `calculate_corrected_values` raise
`KeyError` (the engine reads `data['month_on_month']` unconditionally); the
missing value is not skipped. -/
theorem C7_counterexample :
    Checked.calculate_corrected_valuesD
        [{ date := "2024-01", month_on_month := none, year_on_year := some 100 }]
        100 200 (1 / 1000) =
      Except.error "KeyError" := by
  with_unfolding_all rfl

theorem calcActualGoD_missing : ∀ (l : List Checked.ObsD) (cur : ℚ) (first : Bool) (b : ℚ),
    (∃ o ∈ l, o.month_on_month = none ∨ o.year_on_year = none) →
      Checked.calcActualGoD l cur first b = Except.error "KeyError" := by
  intro l
  induction l with
  | nil =>
    rintro cur first b ⟨o, ho, _⟩
    simp at ho
  | cons d rest ih =>
    rintro cur first b ⟨o, ho, hbad⟩
    rcases List.mem_cons.mp ho with rfl | hmem
    · rcases hbad with hm | hy
      · simp [Checked.calcActualGoD, hm, Checked.getKey, Bind.bind, Except.bind]
      · cases hmob : o.month_on_month with
        | none => simp [Checked.calcActualGoD, hmob, Checked.getKey, Bind.bind, Except.bind]
        | some m =>
          simp [Checked.calcActualGoD, hmob, hy, Checked.getKey, Bind.bind, Except.bind]
    · cases hm : d.month_on_month with
      | none => simp [Checked.calcActualGoD, hm, Checked.getKey, Bind.bind, Except.bind]
      | some m =>
        cases hy : d.year_on_year with
        | none => simp [Checked.calcActualGoD, hm, hy, Checked.getKey, Bind.bind, Except.bind]
        | some y =>
          simp [Checked.calcActualGoD, hm, hy, Checked.getKey, Bind.bind, Except.bind,
            ih _ false b ⟨o, hmem, hbad⟩]

/-- C7 amended: `calculate_corrected_values` returns normally on the empty
series and on every single-point series whose two values are present (for the
default `max_iterations`/`tolerance`), but a series containing an observation
whose `month_on_month` or `year_on_year` is absent raises `KeyError` instead
of skipping the constraint. -/
theorem C7_amended :
    (∀ (b : ℚ) (mi : ℕ) (tol : ℚ),
      Checked.calculate_corrected_valuesD [] b mi tol = Except.ok []) ∧
    (∀ (d : String) (m y : ℚ) (fp : Option String) (b : ℚ),
      (Checked.calculate_corrected_valuesD
        [{ date := d, month_on_month := some m, year_on_year := some y, filepath := fp }]
        b 200 (1 / 1000)).isOk = true) ∧
    (∀ (l : List Checked.ObsD) (b : ℚ) (mi : ℕ) (tol : ℚ),
      (∃ o ∈ l, o.month_on_month = none ∨ o.year_on_year = none) →
        Checked.calculate_corrected_valuesD l b mi tol = Except.error "KeyError") := by
  refine ⟨fun b mi tol => rfl, fun d m y fp b => by with_unfolding_all rfl, ?_⟩
  intro l b mi tol h
  match l, h with
  | d :: rest, h =>
    have hb : Checked.calculate_actual_valuesD (d :: rest) b = Except.error "KeyError" :=
      calcActualGoD_missing (d :: rest) b true b h
    show (Checked.calculate_actual_valuesD (d :: rest) b >>= fun r0 => _) = _
    rw [hb]
    rfl

/-- Witness for C7 amended: a concrete missing-value series raises, and a
concrete well-formed single-point series does not. -/
theorem C7_amended_witness :
    Checked.calculate_corrected_valuesD
        [{ date := "2024-02", month_on_month := some 100, year_on_year := none }]
        100 200 (1 / 1000) = Except.error "KeyError" ∧
    (Checked.calculate_corrected_valuesD
        [{ date := "2024-03", month_on_month := some 100, year_on_year := some 100,
           filepath := none }] 100 200 (1 / 1000)).isOk = true :=
  ⟨C7_amended.2.2 [{ date := "2024-02", month_on_month := some 100, year_on_year := none }]
      100 200 (1 / 1000) ⟨_, List.mem_singleton.mpr rfl, Or.inr rfl⟩,
   C7_amended.2.1 "2024-03" 100 100 none 100⟩

/-! ## Claim C1: the residual-mismatch bound -/

set_option maxRecDepth 2000000 in
set_option maxHeartbeats 40000000 in
/-- Counterexample to C1 as stated: `obsC1` is a series of 24 contiguous
monthly observations with every published MoM and YoY value inside [95, 105],
yet `calculate_corrected_values` with the default parameters (base 100,
`max_iterations = 200`, `tolerance = 0.001`) returns a result with
`count(mom_match=false) + count(yoy_match=false) = 8 > 2`.  (On this input the
sweep converges after 4 passes and each of the 5 forcing rounds fails to
reduce the count.) -/
theorem C1_counterexample :
    obsC1.length = 24 ∧
    obsC1.all (fun o =>
      decide (95 ≤ o.month_on_month) && decide (o.month_on_month ≤ 105) &&
      decide (95 ≤ o.year_on_year) && decide (o.year_on_year ≤ 105)) = true ∧
    totalMismatchCount (calculate_corrected_values obsC1 100 200 (1 / 1000)) = 8 ∧
    2 < 8 :=
  ⟨of_decide_eq_true (by with_unfolding_all rfl),
   of_decide_eq_true (by with_unfolding_all rfl),
   of_decide_eq_true (by with_unfolding_all rfl),
   of_decide_eq_true (by with_unfolding_all rfl)⟩

/-- C1 amended: the `<= 2` bound holds exactly for those runs in which the
final forcing stage's round-level check observes at most 2 total mismatches
within its 5 rounds (the loop then stops early); the stage is best-effort and
the bound fails on other inputs, e.g. `obsC1`. -/
theorem C1_amended (l : List Obs) (b : ℚ) (mi : ℕ) (tol : ℚ) (hne : l ≠ [])
    (hbreak : (forceLoop 5 (verifyAllPass
        (sweepLoop mi tol mi 0 (calculate_actual_values l b)).1)).2 < 5) :
    totalMismatchCount (calculate_corrected_values l b mi tol) ≤ 2 := by
  match l, hne with
  | d :: rest, _ =>
    exact forceLoop_break_bound 5 _ hbreak

set_option maxRecDepth 400000 in
/-- Witness for C1 amended: on the single-point series the forcing loop
breaks in its first round and the result has no mismatches. -/
theorem C1_amended_witness :
    totalMismatchCount (calculate_corrected_values obsW1 100 200 (1 / 1000)) ≤ 2 :=
  C1_amended obsW1 100 200 (1 / 1000) (by simp [obsW1])
    (of_decide_eq_true (by with_unfolding_all rfl))

end HousePrice
